import Mathlib

/-!
Verification of the CORD policy decision engine (`cord_engine`).

Shallow embedding conventions:
  * Python floats are modelled as rationals (`Rat`); every float constant in
    the source (weights, per-check score increments, thresholds) is an exact
    dyadic or decimal value far below double precision limits, so all the
    comparisons and sums the theorems rely on coincide with the float
    semantics.
  * Python lists are `List`, dicts are association lists with Python's
    insertion-order semantics, exceptions are `Except`.
  * Calls into external libraries (SHA-256, `unicodedata.normalize`,
    `datetime.fromisoformat`, base64) are either implemented (SHA-256) or
    taken as explicit function parameters, documented at the definition.
-/

namespace Cord

/-! ## models.py — Decision and CheckResult -/

/-- `Decision` enum from `cord_engine/models.py`. -/
inductive Decision
  | ALLOW
  | CHALLENGE
  | CONTAIN
  | BLOCK
deriving DecidableEq, Repr

/-- Position of a decision in the severity order ALLOW < CONTAIN <
CHALLENGE < BLOCK used by the monotonicity property. -/
def Decision.rank : Decision → Nat
  | .ALLOW => 0
  | .CONTAIN => 1
  | .CHALLENGE => 2
  | .BLOCK => 3

/-- `CheckResult` dataclass from `cord_engine/models.py`. -/
structure CheckResult where
  dimension : String
  article : String
  score : Rat
  reasons : List String := []
  hard_block : Bool := false
deriving DecidableEq, Repr

/-! ## policies.py — WEIGHTS and THRESHOLDS -/

/-- The `WEIGHTS` dict from `cord_engine/policies.py`, as the lookup
`WEIGHTS.get(d, 1)` used by the scoring engine (absent keys default to 1). -/
def WEIGHTS : String → Rat
  | "long_term_alignment" => 3
  | "moral_check" => 5
  | "truth_check" => 2
  | "consequence_analysis" => 3
  | "sustainability_check" => 2
  | "financial_risk" => 3
  | "security_check" => 4
  | "drift_check" => 2
  | "evaluation_framework" => 3
  | "temperament_check" => 1
  | "identity_check" => 1
  | "injection" => 4
  | "exfil" => 4
  | "privilege" => 4
  | "irreversibility" => 4
  | "intent_drift" => 3
  | "anomaly" => 2
  | "prompt_injection" => 5
  | "pii_leakage" => 4
  | "rate_anomaly" => 3
  | "tool_risk" => 1
  | _ => 1

/-- The `THRESHOLDS` dict from `cord_engine/policies.py`. -/
def THRESHOLDS : String → Rat
  | "allow" => 3
  | "contain" => 5
  | "challenge" => 7
  | "block" => 7
  | _ => 0

/-! ## scoring.py -/

/-- `compute_composite_score` from `cord_engine/scoring.py`. -/
def compute_composite_score (check_results : List CheckResult) : Rat :=
  check_results.foldl (fun total r => total + r.score * WEIGHTS r.dimension) 0

/-- `detect_anomaly` from `cord_engine/scoring.py`. -/
def detect_anomaly (check_results : List CheckResult) : Rat :=
  let high_signals := (check_results.filter (fun r => 2 ≤ r.score)).length
  if high_signals ≥ 4 then 3
  else if high_signals ≥ 3 then 2
  else if high_signals ≥ 2 then 1
  else 0

/-- `has_hard_block` from `cord_engine/scoring.py`. -/
def has_hard_block (check_results : List CheckResult) : Bool :=
  check_results.any (·.hard_block)

/-- `decide` from `cord_engine/scoring.py`. -/
def decide (score : Rat) (check_results : List CheckResult) : Decision :=
  if has_hard_block check_results then .BLOCK
  else if score ≥ THRESHOLDS "block" then .BLOCK
  else if score ≥ THRESHOLDS "challenge" then .CHALLENGE
  else if score ≥ THRESHOLDS "contain" then .CONTAIN
  else .ALLOW

/-- `collect_reasons` from `cord_engine/scoring.py`. -/
def collect_reasons (check_results : List CheckResult) : List String :=
  check_results.foldl
    (fun reasons r => if 0 < r.score ∨ r.hard_block then reasons ++ r.reasons else reasons)
    []

/-- `collect_violations` from `cord_engine/scoring.py`. -/
def collect_violations (check_results : List CheckResult) : List String :=
  check_results.foldl
    (fun violations r =>
      if 0 < r.score ∨ r.hard_block then
        if r.article ∈ violations then violations else violations ++ [r.article]
      else violations)
    []

/-- Steps 6–7 of the pipeline (`engine.py: evaluate`): composite score plus
anomaly amplification, then the decision map. -/
def decisionFor (check_results : List CheckResult) : Decision :=
  decide (compute_composite_score check_results + detect_anomaly check_results) check_results

/-- Python exceptions that the modelled code can raise (and does not catch). -/
inductive PyErr
  | attrError   -- AttributeError
  | typeError   -- TypeError
  | valueError  -- ValueError
deriving DecidableEq, Repr

/-! ## A small regex engine — model of Python `re` for the patterns used

Python's `re` module is an external library.  The repository's patterns use
literals, character classes, `.`, alternation, greedy and lazy `* + ? {m,n}`
repetition, word boundaries, `^`, one-character lookarounds, and the
IGNORECASE / DOTALL flags.  The engine below implements Python's
backtracking preference order (leftmost start wins, alternation prefers the
left branch, greedy repetition prefers longer, lazy prefers shorter) for
exactly those constructs.  Case folding and the `\w \d \s` classes are
modelled over ASCII — every pattern in the source is pure ASCII.  The
recursion is fuelled; the fuel is an embedding artifact, chosen large
enough for every concrete evaluation in this file, and no theorem depends
on the fuel value. -/

/-- Characters are Unicode code points as `Nat` — Python's `str` admits
lone surrogates and `chr` covers `0..0x10FFFF`, wider than Lean's `Char`. -/
abbrev Cp := Nat

/-- Code points of a Lean string. -/
def toCps (s : String) : List Cp := s.data.map Char.toNat

/-- Back to a Lean string (total; only applied to scalar-valued lists). -/
def ofCps (l : List Cp) : String := ⟨l.map Char.ofNat⟩

/-- Shorthand for a literal character code. -/
def cc (c : Char) : Cp := c.toNat

/-- One item of a character class. -/
inductive ClsItem
  | single (c : Cp)
  | range (lo hi : Cp)
  | digit   -- \d
  | word    -- \w
  | space   -- \s
deriving DecidableEq, Repr

/-- Regex abstract syntax. `star`/`opt` carry a greediness flag; bounded
repetition `x{m,n}` is expanded into nested optionals preserving Python's
preference order. `look` covers lookahead `(?=…)/(?!…)` and the
single-width lookbehind `(?<!\w)` used by the normalizer. -/
inductive Re
  | eps
  | lit (c : Cp)
  | anyChar
  | cls (neg : Bool) (items : List ClsItem)
  | seq (a b : Re)
  | alt (a b : Re)
  | star (greedy : Bool) (a : Re)
  | opt (greedy : Bool) (a : Re)
  | bound
  | bol
  | look (ahead : Bool) (neg : Bool) (a : Re)
deriving DecidableEq, Repr

/-- IGNORECASE / DOTALL compilation flags. -/
structure ReFlags where
  ignoreCase : Bool := false
  dotAll : Bool := false
deriving DecidableEq, Repr

def asciiLower (c : Cp) : Cp := if 65 ≤ c && c ≤ 90 then c + 32 else c

def asciiUpper (c : Cp) : Cp := if 97 ≤ c && c ≤ 122 then c - 32 else c

/-- `\w` (ASCII fragment of Python's unicode word class). -/
def isWordChar (c : Cp) : Bool :=
  (97 ≤ c && c ≤ 122) || (65 ≤ c && c ≤ 90) || (48 ≤ c && c ≤ 57) || c == 95

def isDigitChar (c : Cp) : Bool := 48 ≤ c && c ≤ 57

/-- `\s` (ASCII fragment: space, tab, newline, carriage return, vertical
tab, form feed). -/
def isSpaceChar (c : Cp) : Bool :=
  c == 32 || c == 9 || c == 10 || c == 13 || c == 11 || c == 12

def clsItemMatch : ClsItem → Cp → Bool
  | .single a, c => a == c
  | .range lo hi, c => lo ≤ c && c ≤ hi
  | .digit, c => isDigitChar c
  | .word, c => isWordChar c
  | .space, c => isSpaceChar c

def clsMatchBase (items : List ClsItem) (c : Cp) : Bool :=
  items.any (clsItemMatch · c)

def clsMatch (fl : ReFlags) (neg : Bool) (items : List ClsItem) (c : Cp) : Bool :=
  let m :=
    if fl.ignoreCase then
      clsMatchBase items c || clsMatchBase items (asciiLower c) || clsMatchBase items (asciiUpper c)
    else clsMatchBase items c
  if neg then !m else m

def charEqRe (fl : ReFlags) (p c : Cp) : Bool :=
  if fl.ignoreCase then asciiLower p == asciiLower c else p == c

def charAt (input : List Cp) (i : Nat) : Option Cp := input[i]?

def isWordAt (input : List Cp) (i : Nat) : Bool :=
  match charAt input i with
  | some c => isWordChar c
  | none => false

/-- The CPS backtracking matcher.  `reMatch fl input fuel re pos k` tries to
match `re` at `pos`, calling the continuation `k` with the end position of
each candidate in Python's preference order, and returns the first success. -/
def reMatch (fl : ReFlags) (input : List Cp) :
    Nat → Re → Nat → (Nat → Option Nat) → Option Nat
  | 0, _, _, _ => none
  | fuel + 1, re, pos, k =>
    match re with
    | .eps => k pos
    | .lit c =>
      match charAt input pos with
      | some c' => if charEqRe fl c c' then k (pos + 1) else none
      | none => none
    | .anyChar =>
      match charAt input pos with
      | some c' => if fl.dotAll || c' != 10 then k (pos + 1) else none
      | none => none
    | .cls neg items =>
      match charAt input pos with
      | some c' => if clsMatch fl neg items c' then k (pos + 1) else none
      | none => none
    | .seq a b => reMatch fl input fuel a pos (fun p => reMatch fl input fuel b p k)
    | .alt a b =>
      match reMatch fl input fuel a pos k with
      | some r => some r
      | none => reMatch fl input fuel b pos k
    | .opt greedy a =>
      if greedy then
        match reMatch fl input fuel a pos k with
        | some r => some r
        | none => k pos
      else
        match k pos with
        | some r => some r
        | none => reMatch fl input fuel a pos k
    | .star greedy a =>
      if greedy then
        match reMatch fl input fuel a pos
            (fun p => if p == pos then none else reMatch fl input fuel (.star greedy a) p k) with
        | some r => some r
        | none => k pos
      else
        match k pos with
        | some r => some r
        | none =>
          reMatch fl input fuel a pos
            (fun p => if p == pos then none else reMatch fl input fuel (.star greedy a) p k)
    | .bound =>
      let prevW := pos != 0 && isWordAt input (pos - 1)
      let curW := isWordAt input pos
      if prevW != curW then k pos else none
    | .bol => if pos == 0 then k pos else none
    | .look ahead neg a =>
      let m : Bool :=
        if ahead then (reMatch fl input fuel a pos some).isSome
        else if pos == 0 then false
        else (reMatch fl input fuel a (pos - 1)
                (fun p => if p == pos then some p else none)).isSome
      if m != neg then k pos else none

/-- Fuel used for every concrete evaluation in this file. -/
def reFuel : Nat := 1000000

/-- Scan successive start positions (leftmost match wins), `tries` positions
remaining. Returns `(start, end)` of the match. -/
def reSearchFrom (fl : ReFlags) (input : List Cp) (re : Re) :
    Nat → Nat → Option (Nat × Nat)
  | _, 0 => none
  | pos, tries + 1 =>
    match reMatch fl input reFuel re pos some with
    | some e => some (pos, e)
    | none => reSearchFrom fl input re (pos + 1) tries

/-- Model of `pattern.search(s)`: the leftmost match as `(start, end)`. -/
def reSearch (fl : ReFlags) (re : Re) (s : List Cp) : Option (Nat × Nat) :=
  reSearchFrom fl s re 0 (s.length + 1)

/-- Does the pattern occur anywhere (`pattern.search(s)` truthiness)? -/
def reTest (fl : ReFlags) (re : Re) (s : List Cp) : Bool :=
  (reSearch fl re s).isSome

/-- String-level `pattern.search(s) is not None`. -/
def reTestStr (fl : ReFlags) (re : Re) (s : String) : Bool :=
  reTest fl re (toCps s)

/-- The matched text (`match.group(0)`) for a `(start, end)` span. -/
def spanText (s : List Cp) (span : Nat × Nat) : List Cp :=
  (s.drop span.1).take (span.2 - span.1)

/-- String-level `match.group(0)` of the leftmost match, or `none`. -/
def reFindStr (fl : ReFlags) (re : Re) (s : String) : Option String :=
  (reSearch fl re (toCps s)).map (fun sp => ofCps (spanText (toCps s) sp))

/-- Model of `pattern.sub(repl, s)` with a replacement function that may
raise (the numeric HTML-entity replacement calls `chr`, which can).
Scans left to right over non-overlapping matches.  None of the repository's
patterns can match the empty string; the `e ≤ b` guard only keeps the model
total. -/
def reSubM (fl : ReFlags) (re : Re) (repl : List Cp → Except PyErr (List Cp)) :
    Nat → Nat → List Cp → Except PyErr (List Cp)
  | _, 0, s => .ok s
  | pos, tries + 1, s =>
    match reSearchFrom fl s re pos (s.length + 1 - pos) with
    | none => .ok s
    | some (b, e) =>
      if e ≤ b then .ok s
      else
        match repl (spanText s (b, e)) with
        | .error err => .error err
        | .ok r =>
          let s' := s.take b ++ r ++ s.drop e
          reSubM fl re repl (b + r.length) tries s'

/-- Model of `pattern.sub` with a total replacement function. -/
def reSub (fl : ReFlags) (re : Re) (repl : List Cp → List Cp) (s : List Cp) : List Cp :=
  match reSubM fl re (fun m => .ok (repl m)) 0 (s.length + 1) s with
  | .ok r => r
  | .error _ => s

/-- Model of `pattern.sub` with a constant replacement. -/
def reSubConst (fl : ReFlags) (re : Re) (repl : List Cp) (s : List Cp) : List Cp :=
  reSub fl re (fun _ => repl) s

/-- String-level constant-replacement `pattern.sub`. -/
def reSubConstStr (fl : ReFlags) (re : Re) (repl : String) (s : String) : String :=
  ofCps (reSubConst fl re (toCps repl) (toCps s))

/-! ### Regex construction helpers -/

/-- Sequence a list of regexes. -/
def rseq (l : List Re) : Re := l.foldr .seq .eps

/-- Alternation over a list (left-preferring, like `a|b|c`). -/
def ralt : List Re → Re
  | [] => .eps
  | [r] => r
  | r :: rest => .alt r (ralt rest)

/-- A literal string. -/
def rlit (s : String) : Re := rseq (s.data.map (fun c => .lit c.toNat))

/-- Greedy `x{m,n}`: `m` required copies then `n - m` nested greedy
optionals (matches Python's preference for more copies first). -/
def rrepUpTo : Nat → Re → Re
  | 0, _ => .eps
  | n + 1, a => .opt true (.seq a (rrepUpTo n a))

def rrep (m n : Nat) (a : Re) : Re :=
  rseq (List.replicate m a) |>.seq (rrepUpTo (n - m) a)

/-- Greedy `x{m,}`: `m` copies then `x*`. -/
def rrepAtLeast (m : Nat) (a : Re) : Re :=
  .seq (rseq (List.replicate m a)) (.star true a)

def rplus (a : Re) : Re := .seq a (.star true a)

def rchars (s : String) : List ClsItem := s.data.map (fun c => .single c.toNat)

/-- `n` copies of a regex (`x{n}`). -/
def rtimes (n : Nat) (a : Re) : Re := rseq (List.replicate n a)

/-! ## SHA-256 (the `hashlib.sha256(...).hexdigest()` the source calls)

Implemented over `Nat` with explicit reduction modulo `2^32`. -/

namespace SHA256

def mod32 (n : Nat) : Nat := n % 4294967296

def rotr (x n : Nat) : Nat := mod32 ((x >>> n) ||| (x <<< (32 - n)))

def bnot32 (x : Nat) : Nat := x ^^^ 4294967295

/-- The 64 round constants of FIPS 180-4 (fractional parts of the cube
roots of the first 64 primes), written in decimal. -/
def K : List Nat :=
  [1116352408, 1899447441, 3049323471, 3921009573, 961987163,
   1508970993, 2453635748, 2870763221, 3624381080, 310598401,
   607225278, 1426881987, 1925078388, 2162078206, 2614888103,
   3248222580, 3835390401, 4022224774, 264347078, 604807628,
   770255983, 1249150122, 1555081692, 1996064986, 2554220882,
   2821834349, 2952996808, 3210313671, 3336571891, 3584528711,
   113926993, 338241895, 666307205, 773529912, 1294757372,
   1396182291, 1695183700, 1986661051, 2177026350, 2456956037,
   2730485921, 2820302411, 3259730800, 3345764771, 3516065817,
   3600352804, 4094571909, 275423344, 430227734, 506948616,
   659060556, 883997877, 958139571, 1322822218, 1537002063,
   1747873779, 1955562222, 2024104815, 2227730452, 2361852424,
   2428436474, 2756734187, 3204031479, 3329325298]

/-- The initial hash value (fractional parts of the square roots of the
first eight primes), in decimal. -/
def H0 : List Nat :=
  [1779033703, 3144134277, 1013904242, 2773480762,
   1359893119, 2600822924, 528734635, 1541459225]

def be64 (n : Nat) : List Nat :=
  [(n >>> 56) &&& 255, (n >>> 48) &&& 255, (n >>> 40) &&& 255, (n >>> 32) &&& 255,
   (n >>> 24) &&& 255, (n >>> 16) &&& 255, (n >>> 8) &&& 255, n &&& 255]

/-- Pad a byte string to a multiple of 64 bytes (0x80, zeros, 64-bit
big-endian bit length). -/
def pad (msg : List Nat) : List Nat :=
  let len := msg.length
  let padZeros := (119 - len % 64) % 64
  msg ++ [0x80] ++ List.replicate padZeros 0 ++ be64 (len * 8)

/-- 16 big-endian 32-bit words of one 64-byte block. -/
def toWords (block : List Nat) : List Nat :=
  (List.range 16).map fun i =>
    (block.getD (4 * i) 0) <<< 24 ||| (block.getD (4 * i + 1) 0) <<< 16 |||
    (block.getD (4 * i + 2) 0) <<< 8 ||| block.getD (4 * i + 3) 0

def smallSigma0 (x : Nat) : Nat := rotr x 7 ^^^ rotr x 18 ^^^ (x >>> 3)
def smallSigma1 (x : Nat) : Nat := rotr x 17 ^^^ rotr x 19 ^^^ (x >>> 10)
def bigSigma0 (x : Nat) : Nat := rotr x 2 ^^^ rotr x 13 ^^^ rotr x 22
def bigSigma1 (x : Nat) : Nat := rotr x 6 ^^^ rotr x 11 ^^^ rotr x 25

/-- Message schedule: the 16 block words extended to 64. -/
def schedule (w16 : List Nat) : Array Nat :=
  (List.range 48).foldl
    (fun w _ =>
      let i := w.size
      w.push (mod32 (smallSigma1 (w.getD (i - 2) 0) + w.getD (i - 7) 0 +
                     smallSigma0 (w.getD (i - 15) 0) + w.getD (i - 16) 0)))
    w16.toArray

/-- One compression round state. -/
structure St where
  a : Nat
  b : Nat
  c : Nat
  d : Nat
  e : Nat
  f : Nat
  g : Nat
  h : Nat

def compress (hs : List Nat) (block : List Nat) : List Nat :=
  let w := schedule (toWords block)
  let st0 : St :=
    ⟨hs.getD 0 0, hs.getD 1 0, hs.getD 2 0, hs.getD 3 0,
     hs.getD 4 0, hs.getD 5 0, hs.getD 6 0, hs.getD 7 0⟩
  let stN :=
    (List.range 64).foldl
      (fun st t =>
        let ch := (st.e &&& st.f) ^^^ (bnot32 st.e &&& st.g)
        let maj := (st.a &&& st.b) ^^^ (st.a &&& st.c) ^^^ (st.b &&& st.c)
        let t1 := mod32 (st.h + bigSigma1 st.e + ch + K.getD t 0 + w.getD t 0)
        let t2 := mod32 (bigSigma0 st.a + maj)
        ⟨mod32 (t1 + t2), st.a, st.b, st.c, mod32 (st.d + t1), st.e, st.f, st.g⟩)
      st0
  [mod32 (hs.getD 0 0 + stN.a), mod32 (hs.getD 1 0 + stN.b),
   mod32 (hs.getD 2 0 + stN.c), mod32 (hs.getD 3 0 + stN.d),
   mod32 (hs.getD 4 0 + stN.e), mod32 (hs.getD 5 0 + stN.f),
   mod32 (hs.getD 6 0 + stN.g), mod32 (hs.getD 7 0 + stN.h)]

def hexDigitChar (n : Nat) : Char :=
  if n < 10 then Char.ofNat (48 + n) else Char.ofNat (87 + n)

def toHex8 (n : Nat) : String :=
  ⟨(List.range 8).map fun i => hexDigitChar ((n >>> (28 - 4 * i)) &&& 15)⟩

/-- SHA-256 hex digest of a byte string. -/
def hexDigest (msg : List Nat) : String :=
  let padded := pad msg
  let final :=
    (List.range (padded.length / 64)).foldl
      (fun hs i => compress hs ((padded.drop (64 * i)).take 64))
      H0
  String.join (final.map toHex8)

end SHA256

/-- UTF-8 encoding of one code point. -/
def utf8Cp (n : Nat) : List Nat :=
  if n < 0x80 then [n]
  else if n < 0x800 then [0xc0 ||| (n >>> 6), 0x80 ||| (n &&& 0x3f)]
  else if n < 0x10000 then
    [0xe0 ||| (n >>> 12), 0x80 ||| ((n >>> 6) &&& 0x3f), 0x80 ||| (n &&& 0x3f)]
  else
    [0xf0 ||| (n >>> 18), 0x80 ||| ((n >>> 12) &&& 0x3f),
     0x80 ||| ((n >>> 6) &&& 0x3f), 0x80 ||| (n &&& 0x3f)]

/-- `s.encode("utf-8")`. -/
def utf8Encode (s : String) : List Nat := s.data.flatMap (fun c => utf8Cp c.toNat)

/-- `hashlib.sha256(text.encode("utf-8")).hexdigest()` — the `_hash` helper
of `audit_log.py` and `_sha` of `intent_lock.py`. -/
def sha256Hex (text : String) : String := SHA256.hexDigest (utf8Encode text)

/-! ## audit_log.py — PII patterns and `redact_pii`

`audit_log.PII_PATTERNS` (note: this dict is a distinct, slightly smaller
copy of `policies.PII_PATTERNS` — its `ssn` pattern has no `\b\d{9}\b`
branch and its `credit_card` pattern has no Diners branch). -/

/-- `\d` -/
def rd : Re := .cls false [.digit]

/-- `[-.\s]` -/
def rsepCls : Re := .cls false [.single (cc '-'), .single (cc '.'), .space]

/-- `audit_log.PII_PATTERNS["ssn"]`: `\b\d{3}-\d{2}-\d{4}\b` -/
def auditSsnRe : Re :=
  rseq [.bound, rtimes 3 rd, .lit (cc '-'), rtimes 2 rd, .lit (cc '-'), rtimes 4 rd, .bound]

/-- `audit_log.PII_PATTERNS["credit_card"]`:
`\b(?:4[0-9]{12}(?:[0-9]{3})?|5[1-5][0-9]{14}|3[47][0-9]{13}|6(?:011|5[0-9]{2})[0-9]{12})\b` -/
def auditCcRe : Re :=
  rseq [.bound,
    ralt [rseq [.lit (cc '4'), rtimes 12 rd, .opt true (rtimes 3 rd)],
          rseq [.lit (cc '5'), .cls false [.range (cc '1') (cc '5')], rtimes 14 rd],
          rseq [.lit (cc '3'), .cls false (rchars "47"), rtimes 13 rd],
          rseq [.lit (cc '6'), .alt (rlit "011") (rseq [.lit (cc '5'), rtimes 2 rd]),
                rtimes 12 rd]],
    .bound]

/-- `[A-Za-z0-9._%+\-]` -/
def emailLocalCls : List ClsItem :=
  [.range (cc 'A') (cc 'Z'), .range (cc 'a') (cc 'z'), .range (cc '0') (cc '9'),
   .single (cc '.'), .single (cc '_'), .single (cc '%'), .single (cc '+'), .single (cc '-')]

/-- `[A-Za-z0-9.\-]` -/
def emailDomainCls : List ClsItem :=
  [.range (cc 'A') (cc 'Z'), .range (cc 'a') (cc 'z'), .range (cc '0') (cc '9'),
   .single (cc '.'), .single (cc '-')]

/-- `PII_PATTERNS["email"]` (same text in `audit_log` and `policies`):
`\b[A-Za-z0-9._%+\-]+@[A-Za-z0-9.\-]+\.[A-Za-z]{2,}\b` -/
def emailRe : Re :=
  rseq [.bound, rplus (.cls false emailLocalCls), .lit (cc '@'),
        rplus (.cls false emailDomainCls), .lit (cc '.'),
        rrepAtLeast 2 (.cls false [.range (cc 'A') (cc 'Z'), .range (cc 'a') (cc 'z')]),
        .bound]

/-- `PII_PATTERNS["phone"]` (same text in `audit_log` and `policies`):
`\b(\+1[-.\s]?)?\(?\d{3}\)?[-.\s]?\d{3}[-.\s]?\d{4}\b` -/
def phoneRe : Re :=
  rseq [.bound,
        .opt true (rseq [.lit (cc '+'), .lit (cc '1'), .opt true rsepCls]),
        .opt true (.lit (cc '(')), rtimes 3 rd, .opt true (.lit (cc ')')),
        .opt true rsepCls, rtimes 3 rd, .opt true rsepCls, rtimes 4 rd, .bound]

/-- `redact_pii` from `cord_engine/audit_log.py`.  The effective redaction
level (`level or REDACTION_LEVEL`, the latter from the
`CORD_LOG_REDACTION` environment variable) is passed explicitly. -/
def redact_pii (level : String) (text : String) : String :=
  if text == "" || level == "none" then text
  else if level == "full" then
    (sha256Hex text).take 16 ++ "...[redacted]"
  else
    let r := reSubConstStr {} auditSsnRe "[SSN-REDACTED]" text
    let r := reSubConstStr {} auditCcRe "[CC-REDACTED]" r
    let r := reSubConstStr {} emailRe "[EMAIL-REDACTED]" r
    reSubConstStr {} phoneRe "[PHONE-REDACTED]" r

/-! ## normalizer.py

`unicodedata.normalize("NFKC", ·)` is an external library call, taken as
the parameter `nfkc`; the base64 expansion's `try_decode` body
(`base64.b64decode(candidate + "==")`, strict UTF-8 decode, `isprintable()`
and `len > 4`) is likewise the parameter `b64`, which returns the decoded
text when every one of those conditions passes and `none` otherwise.
Everything else is implemented directly. -/

/-- The `_ZERO_WIDTH` character-class code points. -/
def zwChars : List Cp :=
  [0x200b, 0x200c, 0x200d, 0x200e, 0x200f, 0xfeff, 0xad, 0x2028, 0x2029, 0x180e, 0x2060]

/-- `_ZERO_WIDTH` as a regex (a one-character class). -/
def zwRe : Re := .cls false (zwChars.map .single)

/-- `_LEET_MAP` from `normalizer.py` (`str.translate` table). -/
def leetChar (c : Cp) : Cp :=
  if c == cc '0' then cc 'o'
  else if c == cc '1' then cc 'i'
  else if c == cc '3' then cc 'e'
  else if c == cc '4' then cc 'a'
  else if c == cc '5' then cc 's'
  else if c == cc '6' then cc 'g'
  else if c == cc '7' then cc 't'
  else if c == cc '8' then cc 'b'
  else if c == cc '@' then cc 'a'
  else if c == cc '$' then cc 's'
  else if c == cc '!' then cc 'i'
  else if c == cc '|' then cc 'i'
  else if c == cc '+' then cc 't'
  else c

/-- `&#x([0-9a-fA-F]+);` -/
def hexEntityRe : Re :=
  rseq [rlit "&#x",
        rplus (.cls false [.digit, .range (cc 'a') (cc 'f'), .range (cc 'A') (cc 'F')]),
        .lit (cc ';')]

/-- `&#(\d+);` -/
def decEntityRe : Re :=
  rseq [rlit "&#", rplus (.cls false [.digit]), .lit (cc ';')]

def hexDigitVal (c : Cp) : Nat :=
  if 48 ≤ c && c ≤ 57 then c - 48
  else if 97 ≤ c && c ≤ 102 then c - 87
  else if 65 ≤ c && c ≤ 70 then c - 55
  else 0

/-- `chr(n)`: one-character string, raising `ValueError` above `0x10FFFF`. -/
def pyChr (n : Nat) : Except PyErr (List Cp) :=
  if n ≤ 0x10ffff then .ok [n] else .error .valueError

/-- Replacement for `&#x…;` matches: `chr(int(m.group(1), 16))` — the
group is the match without the leading `&#x` and trailing `;`. -/
def hexEntityRepl (m : List Cp) : Except PyErr (List Cp) :=
  pyChr (((m.drop 3).dropLast).foldl (fun a c => a * 16 + hexDigitVal c) 0)

/-- Replacement for `&#…;` matches: `chr(int(m.group(1)))`. -/
def decEntityRepl (m : List Cp) : Except PyErr (List Cp) :=
  pyChr (((m.drop 2).dropLast).foldl (fun a c => a * 10 + (c - 48)) 0)

/-- `[a-zA-Z0-9]` -/
def alnumCls : Re := .cls false [.range (cc 'a') (cc 'z'), .range (cc 'A') (cc 'Z'), .digit]

/-- `[\s\.\-_]` -/
def wsepCls : Re :=
  .cls false [.space, .single (cc '.'), .single (cc '-'), .single (cc '_')]

/-- `_WORD_SPLIT`: `(?<!\w)((?:[a-zA-Z0-9][\s\.\-_]){2,}[a-zA-Z0-9])(?!\w)` -/
def wordSplitRe : Re :=
  rseq [.look false true (.cls false [.word]),
        rrepAtLeast 2 (.seq alnumCls wsepCls), alnumCls,
        .look true true (.cls false [.word])]

/-- The `rejoin` replacement of `_collapse_word_splits`:
`re.sub(r"[\s\.\-_]", "", fragment)`, i.e. drop the separator characters
(the lookarounds are zero-width, so group 1 is the whole match). -/
def rejoinRepl (m : List Cp) : List Cp :=
  m.filter (fun c => !(isSpaceChar c || c == cc '.' || c == cc '-' || c == cc '_'))

/-- `_collapse_word_splits` from `normalizer.py`. -/
def collapse_word_splits (s : List Cp) : List Cp :=
  reSub {} wordSplitRe rejoinRepl s

/-- `_B64_CANDIDATE`: `(?:[A-Za-z0-9+/]{20,}={0,2})` -/
def b64CandidateRe : Re :=
  .seq (rrepAtLeast 20 (.cls false
          [.range (cc 'A') (cc 'Z'), .range (cc 'a') (cc 'z'), .digit,
           .single (cc '+'), .single (cc '/')]))
       (rrep 0 2 (.lit (cc '=')))

/-- `_decode_b64_candidates` from `normalizer.py`, with the decode chain as
the parameter `b64`: on success the decoded text is appended after the
original blob and a space. -/
def decode_b64_candidates (b64 : List Cp → Option (List Cp)) (s : List Cp) : List Cp :=
  reSub {} b64CandidateRe
    (fun m =>
      match b64 m with
      | some decoded => m ++ [cc ' '] ++ decoded
      | none => m) s

/-- `[ \t]{2,}` (step 7, whitespace cleanup). -/
def wsCollapseRe : Re := rrepAtLeast 2 (.cls false [.single 32, .single 9])

/-- `normalize` from `cord_engine/normalizer.py`, over code points.
Step order as in the source: NFKC, zero-width strip, HTML entities (the
four named ones case-insensitively, then hex, then decimal — a numeric
entity whose value exceeds `0x10FFFF` makes `chr` raise `ValueError`,
uncaught), base64 expansion, word-split collapse, leet translation,
whitespace collapse; if the result differs from the input, original and
normalized are concatenated with a space. -/
def normalize (nfkc : List Cp → List Cp) (b64 : List Cp → Option (List Cp))
    (text : List Cp) : Except PyErr (List Cp) :=
  if text.isEmpty then .ok text
  else
    let r := nfkc text
    let r := reSubConst {} zwRe [] r
    let r := reSubConst {ignoreCase := true} (rlit "&lt;") (toCps "<") r
    let r := reSubConst {ignoreCase := true} (rlit "&gt;") (toCps ">") r
    let r := reSubConst {ignoreCase := true} (rlit "&amp;") (toCps "&") r
    let r := reSubConst {ignoreCase := true} (rlit "&quot;") (toCps "\"") r
    match reSubM {} hexEntityRe hexEntityRepl 0 (r.length + 1) r with
    | .error e => .error e
    | .ok r1 =>
      match reSubM {} decEntityRe decEntityRepl 0 (r1.length + 1) r1 with
      | .error e => .error e
      | .ok r2 =>
        let r3 := decode_b64_candidates b64 r2
        let r4 := collapse_word_splits r3
        let r5 := r4.map leetChar
        let r6 := reSubConst {} wsCollapseRe (toCps " ") r5
        .ok (if r6 != text then text ++ [cc ' '] ++ r6 else r6)

/-- `normalize_proposal_text` from `normalizer.py`. -/
def normalize_proposal_text (nfkc : List Cp → List Cp)
    (b64 : List Cp → Option (List Cp)) (text raw_input : List Cp) :
    Except PyErr (List Cp × List Cp) :=
  match normalize nfkc b64 text with
  | .error e => .error e
  | .ok t =>
    if raw_input.isEmpty then .ok (t, [])
    else
      match normalize nfkc b64 raw_input with
      | .error e => .error e
      | .ok r => .ok (t, r)

/-! ## policies.py — patterns and tables

Each regex below transcribes the compiled pattern of `policies.py`; the
original pattern text is quoted in the doc comment.  `\s* \s+ \w+` are
`.star`/`rplus` over the space/word classes; `x?` is `.opt`; `.{0,30}` is
`rrep 0 30 .anyChar`; lazy `.*?` is `.star false .anyChar`. -/

/-- `\s` -/
def rsp : Re := .cls false [.space]

/-- `\w` -/
def rw : Re := .cls false [.word]

/-- `\s+` -/
def rsp1 : Re := rplus rsp

/-- `\s*` -/
def rsp0 : Re := .star true rsp

/-- A `\b…\b`-delimited literal word. -/
def rword (s : String) : Re := rseq [.bound, rlit s, .bound]

/-- `PATTERNS["injection"]` (IGNORECASE):
`(<<|{{|}}\s*--|;\s*--|\bunion\b|\bdrop\b|\binsert\b|\bexec\b|\bshutdown\b|`
`\brm\s+-rf\b|curl\s+https?:|\beval\b|\bimport\s+os\b|\bsubprocess\b|`
`__import__|os\.system|os\.popen)` -/
def injectionRe : Re :=
  ralt [rlit "<<", rlit "\x7b\x7b",
        rseq [rlit "\x7d\x7d", rsp0, rlit "--"],
        rseq [rlit ";", rsp0, rlit "--"],
        rword "union", rword "drop", rword "insert", rword "exec", rword "shutdown",
        rseq [.bound, rlit "rm", rsp1, rlit "-rf", .bound],
        rseq [rlit "curl", rsp1, rlit "http", .opt true (.lit (cc 's')), .lit (cc ':')],
        rword "eval",
        rseq [.bound, rlit "import", rsp1, rlit "os", .bound],
        rword "subprocess",
        rlit "__import__", rlit "os.system", rlit "os.popen"]

/-- `PATTERNS["exfil"]` (IGNORECASE):
`(upload|exfil|curl\s+https?:|wget\s+https?:|scp\s|nc\s|`
`requests\.post|urllib|httpx\.post|send.*to.*server|transmit|beacon)` -/
def exfilRe : Re :=
  ralt [rlit "upload", rlit "exfil",
        rseq [rlit "curl", rsp1, rlit "http", .opt true (.lit (cc 's')), .lit (cc ':')],
        rseq [rlit "wget", rsp1, rlit "http", .opt true (.lit (cc 's')), .lit (cc ':')],
        rseq [rlit "scp", rsp], rseq [rlit "nc", rsp],
        rlit "requests.post", rlit "urllib", rlit "httpx.post",
        rseq [rlit "send", .star true .anyChar, rlit "to", .star true .anyChar, rlit "server"],
        rlit "transmit", rlit "beacon"]

/-- `[_\- ]?` -/
def rsepOpt : Re := .opt true (.cls false [.single (cc '_'), .single (cc '-'), .single 32])

/-- `PATTERNS["secrets"]` (IGNORECASE):
`(api[_\- ]?keys?|tokens?|passwords?|secrets?\b|aws_secret|authorization|`
`credentials?|private[_\- ]?keys?|ssh[_\- ]?keys?|\.env\b|keychain|passphrase|`
`system\s+prompts?)` -/
def secretsRe : Re :=
  ralt [rseq [rlit "api", rsepOpt, rlit "key", .opt true (.lit (cc 's'))],
        rseq [rlit "token", .opt true (.lit (cc 's'))],
        rseq [rlit "password", .opt true (.lit (cc 's'))],
        rseq [rlit "secret", .opt true (.lit (cc 's')), .bound],
        rlit "aws_secret", rlit "authorization",
        rseq [rlit "credential", .opt true (.lit (cc 's'))],
        rseq [rlit "private", rsepOpt, rlit "key", .opt true (.lit (cc 's'))],
        rseq [rlit "ssh", rsepOpt, rlit "key", .opt true (.lit (cc 's'))],
        rseq [rlit ".env", .bound],
        rlit "keychain", rlit "passphrase",
        rseq [rlit "system", rsp1, rlit "prompt", .opt true (.lit (cc 's'))]]

/-- `HIGH_IMPACT_VERBS` from `policies.py`. -/
def HIGH_IMPACT_VERBS : List String :=
  ["delete", "drop", "shutdown", "format", "wipe",
   "disable", "lock", "kill", "terminate", "overwrite",
   "purge", "destroy", "truncate", "revoke", "erase",
   "rm", "remove", "uninstall"]

/-- `HIGH_IMPACT_VERBS_PATTERN`: `\b(delete|drop|…)\b` (IGNORECASE). -/
def highImpactRe : Re :=
  rseq [.bound, ralt (HIGH_IMPACT_VERBS.map rlit), .bound]

/-- `ALLOWLIST_KEYWORDS` from `policies.py` (checked by substring `in`). -/
def ALLOWLIST_KEYWORDS : List String :=
  ["read-only", "preview", "dry-run", "simulate", "list",
   "status", "check", "verify", "inspect", "view",
   "describe", "explain", "show", "query", "search"]

/-- `MORAL_BLOCK_PATTERNS` (IGNORECASE); pattern text as in `policies.py`:
`(steal|fraud|blackmail|extort|coerce|impersonate|forge|counterfeit|phish|`
`exploit\s+vuln|hack\s+into|breach\s+security|harm\s+\w+|threaten|`
`deceive\s+\w+|manipulate\s+\w+|pretend\s+to\s+be\s+(a\s+)?human|`
`as\s+if\s+i\s+am\b|as\s+if\s+you\s+are\b|pose\s+as|masquerade\s+as|`
`the\s+human\s+owner|acting\s+as\s+the\s+human|`
`unless\s+(they|you|he|she|we|i)\s+(pay|comply|agree|cooperate|transfer)|`
`compromising\s+(photos?|images?|videos?|materials?|info|information|data|documents?|evidence)|`
`(leak|release|expose|publish|send)\s+.{0,30}(unless|or\s+else|if\s+not))` -/
def moralBlockRe : Re :=
  ralt [rlit "steal", rlit "fraud", rlit "blackmail", rlit "extort", rlit "coerce",
        rlit "impersonate", rlit "forge", rlit "counterfeit", rlit "phish",
        rseq [rlit "exploit", rsp1, rlit "vuln"],
        rseq [rlit "hack", rsp1, rlit "into"],
        rseq [rlit "breach", rsp1, rlit "security"],
        rseq [rlit "harm", rsp1, rplus rw],
        rlit "threaten",
        rseq [rlit "deceive", rsp1, rplus rw],
        rseq [rlit "manipulate", rsp1, rplus rw],
        rseq [rlit "pretend", rsp1, rlit "to", rsp1, rlit "be", rsp1,
              .opt true (rseq [rlit "a", rsp1]), rlit "human"],
        rseq [rlit "as", rsp1, rlit "if", rsp1, rlit "i", rsp1, rlit "am", .bound],
        rseq [rlit "as", rsp1, rlit "if", rsp1, rlit "you", rsp1, rlit "are", .bound],
        rseq [rlit "pose", rsp1, rlit "as"],
        rseq [rlit "masquerade", rsp1, rlit "as"],
        rseq [rlit "the", rsp1, rlit "human", rsp1, rlit "owner"],
        rseq [rlit "acting", rsp1, rlit "as", rsp1, rlit "the", rsp1, rlit "human"],
        rseq [rlit "unless", rsp1,
              ralt [rlit "they", rlit "you", rlit "he", rlit "she", rlit "we", rlit "i"],
              rsp1,
              ralt [rlit "pay", rlit "comply", rlit "agree", rlit "cooperate",
                    rlit "transfer"]],
        rseq [rlit "compromising", rsp1,
              ralt [rseq [rlit "photo", .opt true (.lit (cc 's'))],
                    rseq [rlit "image", .opt true (.lit (cc 's'))],
                    rseq [rlit "video", .opt true (.lit (cc 's'))],
                    rseq [rlit "material", .opt true (.lit (cc 's'))],
                    rlit "info", rlit "information", rlit "data",
                    rseq [rlit "document", .opt true (.lit (cc 's'))],
                    rlit "evidence"]],
        rseq [ralt [rlit "leak", rlit "release", rlit "expose", rlit "publish", rlit "send"],
              rsp1, rrep 0 30 .anyChar,
              ralt [rlit "unless",
                    rseq [rlit "or", rsp1, rlit "else"],
                    rseq [rlit "if", rsp1, rlit "not"]]]]

/-- `IDENTITY_VIOLATION_PATTERNS` (IGNORECASE):
`(pretend\s+to\s+be\s+(a\s+)?human|as\s+if\s+i\s+am\b|as\s+if\s+you\s+are\b|`
`\bimpersonate\b|claim\s+to\s+be|pose\s+as|masquerade\s+as|the\s+human\s+owner|`
`acting\s+as\s+the\s+human|respond.*as.*human|present.*as.*human)` -/
def identityRe : Re :=
  ralt [rseq [rlit "pretend", rsp1, rlit "to", rsp1, rlit "be", rsp1,
              .opt true (rseq [rlit "a", rsp1]), rlit "human"],
        rseq [rlit "as", rsp1, rlit "if", rsp1, rlit "i", rsp1, rlit "am", .bound],
        rseq [rlit "as", rsp1, rlit "if", rsp1, rlit "you", rsp1, rlit "are", .bound],
        rword "impersonate",
        rseq [rlit "claim", rsp1, rlit "to", rsp1, rlit "be"],
        rseq [rlit "pose", rsp1, rlit "as"],
        rseq [rlit "masquerade", rsp1, rlit "as"],
        rseq [rlit "the", rsp1, rlit "human", rsp1, rlit "owner"],
        rseq [rlit "acting", rsp1, rlit "as", rsp1, rlit "the", rsp1, rlit "human"],
        rseq [rlit "respond", .star true .anyChar, rlit "as", .star true .anyChar, rlit "human"],
        rseq [rlit "present", .star true .anyChar, rlit "as", .star true .anyChar, rlit "human"]]

/-- `[_-]?` -/
def rdashOpt : Re := .opt true (.cls false [.single (cc '_'), .single (cc '-')])

/-- `FINANCIAL_RISK_PATTERNS` (IGNORECASE):
`(transfer\s+funds|wire\s+money|invest\s+all|leverage|margin\s+call|`
`high[_-]?risk|gamble|bet\s+on|speculate|all[_-]?in|borrow|loan|`
`credit\s+card|overdraft)` -/
def financialRiskRe : Re :=
  ralt [rseq [rlit "transfer", rsp1, rlit "funds"],
        rseq [rlit "wire", rsp1, rlit "money"],
        rseq [rlit "invest", rsp1, rlit "all"],
        rlit "leverage",
        rseq [rlit "margin", rsp1, rlit "call"],
        rseq [rlit "high", rdashOpt, rlit "risk"],
        rlit "gamble",
        rseq [rlit "bet", rsp1, rlit "on"],
        rlit "speculate",
        rseq [rlit "all", rdashOpt, rlit "in"],
        rlit "borrow", rlit "loan",
        rseq [rlit "credit", rsp1, rlit "card"],
        rlit "overdraft"]

/-- `PROMPT_INJECTION_PATTERNS` (IGNORECASE | DOTALL); pattern text as in
`policies.py` (classic overrides, role jacking, template delimiters,
collapsed word-split forms, hidden-instruction tricks). -/
def promptInjectionRe : Re :=
  ralt [rseq [rlit "ignore", rsp0, rrep 0 3 (.seq (rplus rw) rsp1),
              rlit "instruction", .opt true (.lit (cc 's'))],
        rseq [rlit "disregard", rsp0, rrep 0 3 (.seq (rplus rw) rsp1),
              ralt [rseq [rlit "instruction", .opt true (.lit (cc 's'))],
                    rseq [rlit "rule", .opt true (.lit (cc 's'))],
                    rseq [rlit "guideline", .opt true (.lit (cc 's'))],
                    rseq [rlit "constraint", .opt true (.lit (cc 's'))]]],
        rseq [rlit "forget", rsp0,
              ralt [rlit "everything",
                    rseq [rlit "your", rsp0, rlit "instruction", .opt true (.lit (cc 's'))],
                    rseq [rlit "what", rsp0, rlit "you", rsp0, rlit "were", rsp0,
                          rlit "told"]]],
        rseq [rlit "new", rsp0, rlit "instruction", .opt true (.lit (cc 's')), rsp0,
              .lit (cc ':')],
        rseq [rlit "override", rsp0, .lit (cc ':')],
        rseq [rlit "system", rsp0, rlit "override"],
        rseq [rlit "you", rsp0, rlit "are", rsp0, rlit "now"],
        rseq [rlit "from", rsp0, rlit "now", rsp0, rlit "on", rsp0, rlit "you", rsp0,
              ralt [rlit "are", rlit "will", rlit "must"]],
        rseq [rlit "act", rsp0, rlit "as", rsp0,
              ralt [rlit "a", rlit "an",
                    rseq [rlit "if", rsp0, rlit "you", rsp0, rlit "are"]]],
        rseq [rlit "your", rsp0, rlit "new", rsp0,
              ralt [rlit "role", rlit "purpose", rlit "mission", rlit "goal", rlit "task"],
              rsp0, rlit "is"],
        rseq [rlit "pretend", rsp0,
              ralt [rseq [rlit "you", rsp0, rlit "have", rsp0, rlit "no"],
                    rseq [rlit "you", rsp0, rlit "don", .anyChar, rlit "t", rsp0,
                          rlit "have"],
                    rseq [rlit "there", rsp0, rlit "are", rsp0, rlit "no"]],
              rsp0,
              ralt [rseq [rlit "rule", .opt true (.lit (cc 's'))],
                    rseq [rlit "constraint", .opt true (.lit (cc 's'))],
                    rseq [rlit "limit", .opt true (.lit (cc 's'))]]],
        rlit "jailbreak",
        rseq [rlit "DAN", rsp0, rlit "mode"],
        rseq [rlit "developer", rsp0, rlit "mode"],
        rseq [rlit "god", rsp0, rlit "mode"],
        rseq [rlit "unrestricted", rsp0, rlit "mode"],
        rseq [rlit "<|", .star false .anyChar, rlit "|>"],
        rlit "<system>", rlit "</system>", rlit "<|im_start|", rlit "<|im_end|",
        rlit "[INST]", rlit "[/INST]", rlit "[SYSTEM]",
        rseq [rlit "###", rsp0, rlit "system"],
        rseq [rlit "###", rsp0, rlit "instruction"],
        rseq [rlit "ignoreprevious", .star true rw, rlit "instruct"],
        rseq [rlit "disregardall", .star true rw],
        rseq [rlit "forgetinstruct", .star true rw],
        rseq [rlit "youarenow", .star true rw],
        rseq [rlit "fromnowon", .star true rw],
        rseq [rlit "the", rsp0, ralt [rlit "following", rlit "above"], rsp0,
              ralt [rlit "text", rlit "content", rlit "data"], rsp0,
              ralt [rlit "is", rlit "contains"], rsp0,
              ralt [rlit "your", rlit "new"], rsp0,
              rlit "instruction", .opt true (.lit (cc 's'))],
        rseq [rlit "translate", rsp0,
              ralt [rlit "this", rseq [rlit "the", rsp0, rlit "following"]], rsp0,
              ralt [rlit "and", rlit "then"], rsp0,
              ralt [rlit "also", rlit "additionally"], rsp0,
              ralt [rlit "do", rlit "execute", rlit "run"]],
        rseq [rlit "after", rsp0,
              ralt [rlit "reading", rlit "processing", rlit "translating",
                    rlit "summarizing"],
              .star false .anyChar,
              ralt [rlit "do", rlit "execute", rlit "send", rlit "call"]]]

/-- `policies.PII_PATTERNS["ssn"]`: `\b\d{3}-\d{2}-\d{4}\b|\b\d{9}\b`
(unlike the audit-log copy, a second nine-digit branch). -/
def policiesSsnRe : Re :=
  .alt (rseq [.bound, rtimes 3 rd, .lit (cc '-'), rtimes 2 rd, .lit (cc '-'),
              rtimes 4 rd, .bound])
       (rseq [.bound, rtimes 9 rd, .bound])

/-- `policies.PII_PATTERNS["credit_card"]`: the audit-log branches plus
Diners `3(?:0[0-5]|[68][0-9])[0-9]{11}`. -/
def policiesCcRe : Re :=
  rseq [.bound,
    ralt [rseq [.lit (cc '4'), rtimes 12 rd, .opt true (rtimes 3 rd)],
          rseq [.lit (cc '5'), .cls false [.range (cc '1') (cc '5')], rtimes 14 rd],
          rseq [.lit (cc '3'), .cls false (rchars "47"), rtimes 13 rd],
          rseq [.lit (cc '3'),
                .alt (rseq [.lit (cc '0'), .cls false [.range (cc '0') (cc '5')]])
                     (rseq [.cls false (rchars "68"), rd]),
                rtimes 11 rd],
          rseq [.lit (cc '6'), .alt (rlit "011") (rseq [.lit (cc '5'), rtimes 2 rd]),
                rtimes 12 rd]],
    .bound]

/-- One octet of the IP pattern: `(?:25[0-5]|2[0-4]\d|[01]?\d\d?)`. -/
def ipOctetRe : Re :=
  ralt [rseq [rlit "25", .cls false [.range (cc '0') (cc '5')]],
        rseq [.lit (cc '2'), .cls false [.range (cc '0') (cc '4')], rd],
        rseq [.opt true (.cls false [.range (cc '0') (cc '1')]), rd, .opt true rd]]

/-- `policies.PII_PATTERNS["ip_address"]`:
`\b(?:(?:25[0-5]|2[0-4]\d|[01]?\d\d?)\.){3}(?:25[0-5]|2[0-4]\d|[01]?\d\d?)\b` -/
def ipAddressRe : Re :=
  rseq [.bound, rtimes 3 (.seq ipOctetRe (.lit (cc '.'))), ipOctetRe, .bound]

/-- The `policies.PII_PATTERNS` dict in its insertion order, as
(name, pattern) pairs. -/
def policiesPiiPatterns : List (String × Re) :=
  [("ssn", policiesSsnRe), ("credit_card", policiesCcRe), ("email", emailRe),
   ("phone", phoneRe), ("ip_address", ipAddressRe)]

/-- `PII_FIELD_NAMES` (IGNORECASE): `\b(social_security|ssn|credit_card|`
`card_number|cvv|date_of_birth|dob|passport|drivers_license|medical_record|`
`health_record|diagnosis|prescription|bank_account|routing_number|tax_id|`
`ein|itin)\b` -/
def piiFieldNamesRe : Re :=
  rseq [.bound,
        ralt [rlit "social_security", rlit "ssn", rlit "credit_card", rlit "card_number",
              rlit "cvv", rlit "date_of_birth", rlit "dob", rlit "passport",
              rlit "drivers_license", rlit "medical_record", rlit "health_record",
              rlit "diagnosis", rlit "prescription", rlit "bank_account",
              rlit "routing_number", rlit "tax_id", rlit "ein", rlit "itin"],
        .bound]

/-- `TOOL_RISK_TIERS.get(name, 0.5)` from `policies.py`. -/
def TOOL_RISK_TIERS : String → Rat
  | "exec" => 3
  | "write" => 3/2
  | "edit" => 1
  | "browser" => 2
  | "network" => 5/2
  | "read" => 0
  | "query" => 0
  | "message" => 3/2
  | _ => 1/2

/-- `ACTION_TYPE_HINTS` from `policies.py`, in dict order, as
(action type, pattern) pairs; all are IGNORECASE. -/
def actionCommandRe : Re :=
  rseq [.bol, ralt [rlit "git", rlit "npm", rlit "pip", rlit "docker", rlit "kubectl",
                    rlit "sudo", rlit "apt", rlit "brew", rlit "make"], rsp]

def actionFileOpRe : Re :=
  rseq [ralt [rlit "write", rlit "read", rlit "edit", rlit "create", rlit "delete",
              rlit "move", rlit "copy", rlit "rename"],
        rsp1,
        ralt [rlit "file", rlit "dir", rlit "folder", rlit "path"]]

def actionNetworkRe : Re :=
  ralt [rlit "curl", rlit "wget", rlit "fetch", rlit "request",
        rseq [rlit "api", rsp1, rlit "call"], rlit "http", rlit "upload", rlit "download"]

def actionFinancialRe : Re :=
  ralt [rlit "buy", rlit "sell", rlit "pay", rlit "transfer", rlit "invest",
        rlit "trade", rlit "purchase", rlit "invoice"]

def actionCommunicationRe : Re :=
  ralt [rlit "send", rlit "email", rlit "message", rlit "post", rlit "publish",
        rlit "tweet", rlit "reply", rlit "comment"]

def actionSystemRe : Re :=
  ralt [rlit "install", rlit "uninstall", rlit "configure", rlit "chmod", rlit "chown",
        rlit "mount", rlit "systemctl", rlit "service"]

def ACTION_TYPE_HINTS : List (String × Re) :=
  [("command", actionCommandRe), ("file_op", actionFileOpRe), ("network", actionNetworkRe),
   ("financial", actionFinancialRe), ("communication", actionCommunicationRe),
   ("system", actionSystemRe)]

/-! ## JSON values and `json.dumps(..., sort_keys=True)`

JSON values as produced by `json.loads` and consumed by `json.dumps`.
Python dicts are association lists in insertion order with unique keys
(every dict built by the modelled code has unique keys; theorems add
`Nodup` hypotheses where an arbitrary payload dict is quantified).
Numbers are rationals; `dumpsNum` renders integers exactly as Python does,
and renders non-integer rationals as `num/den` — a deviation from Python's
float repr that no theorem depends on (the hash arguments only require
serialization to be a function of the value). -/

inductive Json
  | null
  | bool (b : Bool)
  | num (q : Rat)
  | str (s : String)
  | arr (elems : List Json)
  | obj (fields : List (String × Json))

/-- A Python dict with JSON values. -/
abbrev JObj := List (String × Json)

mutual

/-- Structural equality of JSON values.  (Python's dict equality is
order-insensitive; every `==`/`!=` in the modelled code compares a parsed
value against a string, where structural and Python equality agree.) -/
def jsonBeq : Json → Json → Bool
  | .null, .null => true
  | .bool a, .bool b => a == b
  | .num a, .num b => a == b
  | .str a, .str b => a == b
  | .arr a, .arr b => jsonListBeq a b
  | .obj a, .obj b => jsonFieldsBeq a b
  | _, _ => false

def jsonListBeq : List Json → List Json → Bool
  | [], [] => true
  | x :: xs, y :: ys => jsonBeq x y && jsonListBeq xs ys
  | _, _ => false

def jsonFieldsBeq : JObj → JObj → Bool
  | [], [] => true
  | (k, x) :: xs, (k', y) :: ys => k == k' && jsonBeq x y && jsonFieldsBeq xs ys
  | _, _ => false

end

instance : BEq Json := ⟨jsonBeq⟩

/-- `d.get(k)` / `d[k]` — first (unique) occurrence. -/
def dictGet : JObj → String → Option Json
  | [], _ => none
  | (k', v) :: rest, k => if k' == k then some v else dictGet rest k

/-- `d[k] = v` (and the overriding spread `{**d, k: v}`): replace in place
when the key exists, append otherwise — Python dict update semantics. -/
def dictSet : JObj → String → Json → JObj
  | [], k, v => [(k, v)]
  | (k', v') :: rest, k, v =>
    if k' == k then (k, v) :: rest else (k', v') :: dictSet rest k v

/-- `d.pop(k, None)` — the dict after removing the key. -/
def dictPop : JObj → String → JObj
  | [], _ => []
  | (k', v') :: rest, k => if k' == k then rest else (k', v') :: dictPop rest k

/-- `{**a, **b}`. -/
def dictExtend (a b : JObj) : JObj :=
  b.foldl (fun acc kv => dictSet acc kv.1 kv.2) a

/-- JSON string escaping as `json.dumps` does with its default
`ensure_ascii=True`: short escapes, `\u00XX` for other control characters,
`\uXXXX` (surrogate pairs above U+FFFF) for non-ASCII. -/
def toHex4 (n : Nat) : List Char :=
  (List.range 4).map fun i => SHA256.hexDigitChar ((n >>> (12 - 4 * i)) &&& 15)

def jsonEscapeChar (c : Char) : List Char :=
  if c == '"' then ['\\', '"']
  else if c == '\\' then ['\\', '\\']
  else if c == '\n' then ['\\', 'n']
  else if c == '\r' then ['\\', 'r']
  else if c == '\t' then ['\\', 't']
  else if c == '\x08' then ['\\', 'b']
  else if c == '\x0c' then ['\\', 'f']
  else if c.toNat < 0x20 then '\\' :: 'u' :: toHex4 c.toNat
  else if c.toNat ≤ 0x7e then [c]
  else if c.toNat < 0x10000 then '\\' :: 'u' :: toHex4 c.toNat
  else
    let v := c.toNat - 0x10000
    ('\\' :: 'u' :: toHex4 (0xd800 + (v >>> 10))) ++ ('\\' :: 'u' :: toHex4 (0xdc00 + (v &&& 0x3ff)))

def jsonQuote (s : String) : String :=
  ⟨'"' :: s.data.flatMap jsonEscapeChar ++ ['"']⟩

def dumpsNum (q : Rat) : String :=
  if q.den == 1 then toString q.num else toString q.num ++ "/" ++ toString q.den

/-- Insertion sort of rendered fields by key, Python's `sorted` order on
strings (lexicographic by code point). -/
def insertByKey (p : String × String) : List (String × String) → List (String × String)
  | [] => [p]
  | q :: rest =>
    if p.1 < q.1 ∨ p.1 = q.1 then p :: q :: rest else q :: insertByKey p rest

def sortPairs (l : List (String × String)) : List (String × String) :=
  l.foldr insertByKey []

def joinFields : List (String × String) → String
  | [] => ""
  | [(k, v)] => jsonQuote k ++ ": " ++ v
  | (k, v) :: rest => jsonQuote k ++ ": " ++ v ++ ", " ++ joinFields rest

mutual

/-- `json.dumps(j, sort_keys=True)` with the default separators
`(", ", ": ")` — the canonical serialization hashed by the audit log.
Object fields are rendered then emitted in sorted key order (sorting by key
before or after rendering is the same ordering). -/
def dumpsJson : Json → String
  | .null => "null"
  | .bool true => "true"
  | .bool false => "false"
  | .num q => dumpsNum q
  | .str s => jsonQuote s
  | .arr es => "[" ++ dumpsArr es ++ "]"
  | .obj fs => "\x7b" ++ joinFields (sortPairs (dumpsFields fs)) ++ "\x7d"

def dumpsArr : List Json → String
  | [] => ""
  | [x] => dumpsJson x
  | x :: y :: rest => dumpsJson x ++ ", " ++ dumpsArr (y :: rest)

def dumpsFields : List (String × Json) → List (String × String)
  | [] => []
  | (k, v) :: rest => (k, dumpsJson v) :: dumpsFields rest

end

/-! ## audit_log.py — the hash-chained JSONL log

The file is modelled as its sequence of nonempty lines.  `val j` is a line
on which `json.loads` succeeds with value `j`; `bad` is a line on which it
raises `JSONDecodeError`.  (All the Python readers strip blank lines, and
`append_log` writes `json.dumps` of an object plus a newline, which parses
back to the same value.)  A missing or empty file is `[]`. -/

inductive LogLine
  | val (j : Json)
  | bad

/-- `_get_prev_hash` from `audit_log.py`.  Returns the raw value of the
last parsed object's `entry_hash` field (Python returns whatever
`parsed.get` yields); raises `AttributeError` when the last line parses to
a non-dict JSON value (only `JSONDecodeError`/`IndexError` are caught). -/
def getPrevHash (log : List LogLine) : Except PyErr Json :=
  match log.getLast? with
  | none => .ok (.str "GENESIS")
  | some .bad => .ok (.str "GENESIS")
  | some (.val (.obj o)) => .ok ((dictGet o "entry_hash").getD (.str "GENESIS"))
  | some (.val _) => .error .attrError

/-- One iteration of the redaction loop of `append_log`: if the field is
present with a string value, redact it in place. -/
def sanitizeField (level : String) (s : JObj) (f : String) : JObj :=
  match dictGet s f with
  | some (.str v) => dictSet s f (.str (redact_pii level v))
  | _ => s

/-- The redaction loop of `append_log` over the fields
`proposal`, `text`, `path`. -/
def sanitizeEntry (level : String) (entry : JObj) : JObj :=
  ["proposal", "text", "path"].foldl (sanitizeField level) entry

/-- `append_log` from `audit_log.py`.  The wall-clock timestamp `ts` and
the process redaction level are explicit parameters; the return value is
the entry hash together with the file after the append.  Raises
`TypeError` when `_get_prev_hash` returns a non-string (the
`prev_hash + json.dumps(...)` concatenation), and propagates
`_get_prev_hash`'s `AttributeError`. -/
def append_log (level ts : String) (entry : JObj) (log : List LogLine) :
    Except PyErr (String × List LogLine) :=
  match getPrevHash log with
  | .error e => .error e
  | .ok (.str prev_hash) =>
    let sanitized := sanitizeEntry level entry
    let base : JObj :=
      dictExtend [("timestamp", .str ts), ("prev_hash", .str prev_hash)] sanitized
    let entry_hash := sha256Hex (prev_hash ++ dumpsJson (.obj base))
    let log_entry := dictSet base "entry_hash" (.str entry_hash)
    .ok (entry_hash, log ++ [.val (.obj log_entry)])
  | .ok _ => .error .typeError

/-- The loop of `verify_chain`: `expected` is the running predecessor hash,
`i` the current line index.  Raises `AttributeError` on a line that parses
to a non-dict (the uncaught `entry.get`). -/
def verifyAux (expected : String) : List LogLine → Nat → Except PyErr (Bool × Nat)
  | [], i => .ok (true, i)
  | line :: rest, i =>
    match line with
    | .bad => .ok (false, i)
    | .val (.obj o) =>
      if dictGet o "prev_hash" != some (.str expected) then .ok (false, i)
      else
        let stored := dictGet o "entry_hash"
        let o' := dictPop o "entry_hash"
        let recomputed := sha256Hex (expected ++ dumpsJson (.obj o'))
        if stored != some (.str recomputed) then .ok (false, i)
        else verifyAux recomputed rest (i + 1)
    | .val _ => .error .attrError

/-- `verify_chain` from `audit_log.py`: `(true, count)` on success,
`(false, index)` at the first bad line. -/
def verify_chain (log : List LogLine) : Except PyErr (Bool × Nat) :=
  verifyAux "GENESIS" log 0

/-- `read_log` from `audit_log.py`: all parsed entries, skipping lines
that raise `JSONDecodeError`. -/
def read_log (log : List LogLine) : List Json :=
  log.filterMap fun
    | .val j => some j
    | .bad => none

/-- Python's `round(x, 1)` (round half to even), exact on the rationals
that reach it here. -/
def round1 (x : Rat) : Rat :=
  let y := x * 10
  let f : Int := ⌊y⌋
  let r := y - f
  (if r < 1/2 then f else if 1/2 < r then f + 1 else if f % 2 = 0 then f else f + 1) / 10

/-- The per-entry contribution to the rate-limit count: an entry with no
`timestamp` key yields `""` (whose parse raises `ValueError`, caught), a
non-string timestamp raises `TypeError` (caught), an unparseable string
raises `ValueError` (caught), and otherwise the entry counts iff its time
is at or after the cutoff.  A non-dict entry raises `AttributeError`
uncaught (`entry.get` sits outside the `try`). -/
def countRecent (parseTs : String → Option Int) (cutoff : Int) :
    List Json → Except PyErr Nat
  | [] => .ok 0
  | e :: rest =>
    match e with
    | .obj o =>
      let contrib :=
        match dictGet o "timestamp" with
        | some (.str s) =>
          match parseTs s with
          | some t => if cutoff ≤ t then 1 else 0
          | none => 0
        | _ => 0
      match countRecent parseTs cutoff rest with
      | .ok n => .ok (contrib + n)
      | .error err => .error err
    | _ => .error .attrError

/-- `check_rate_limit` from `audit_log.py`.  External time is explicit:
`parseTs` models `datetime.fromisoformat` (converted to UTC seconds, with
naive timestamps assumed UTC) and `now` the current UTC seconds.  Returns
`(exceeded, count_in_window, rate_per_minute)`. -/
def check_rate_limit (parseTs : String → Option Int) (now : Int)
    (window_seconds : Nat) (max_count : Nat) (log : List LogLine) :
    Except PyErr (Bool × Nat × Rat) :=
  let entries := read_log log
  if entries.isEmpty then .ok (false, 0, 0)
  else
    match countRecent parseTs (now - window_seconds) entries with
    | .error e => .error e
    | .ok count =>
      let rate := round1 ((count : Rat) / (window_seconds : Rat) * 60)
      .ok (Decidable.decide (max_count ≤ count), count, rate)

/-- The `base` object built by `append_log` for predecessor hash `h`. -/
def newBase (level ts : String) (e : JObj) (h : String) : JObj :=
  dictExtend [("timestamp", .str ts), ("prev_hash", .str h)] (sanitizeEntry level e)

/-- The entry hash computed by `append_log` for predecessor hash `h`. -/
def newHash (level ts : String) (e : JObj) (h : String) : String :=
  sha256Hex (h ++ dumpsJson (.obj (newBase level ts e h)))

/-- The `log_entry` object written by `append_log` for predecessor hash `h`. -/
def newEntry (level ts : String) (e : JObj) (h : String) : JObj :=
  dictSet (newBase level ts e h) "entry_hash" (.str (newHash level ts e h))

/-! ## intent_lock.py — Scope, IntentLock, set / load

`load_intent_lock` performs no type validation, so the loaded fields are
modelled as raw JSON values.  The lock file is `none` when missing,
`some .bad` when `json.loads` raises, `some (.val j)` when it parses to `j`. -/

/-- `Scope` dataclass (fields as loaded, unvalidated). -/
structure Scope where
  allow_paths : Json := .arr []
  allow_commands : Json := .arr []
  allow_network_targets : Json := .arr []

/-- `IntentLock` dataclass (fields as loaded, unvalidated). -/
structure IntentLock where
  user_id : Json
  intent_text : Json
  scope : Scope
  passphrase_hash : Json
  created_at : Json

/-- The scope-dict coercion inside `set_intent_lock`:
`scope.get("allow_paths", scope.get("allowPaths", []))` and friends —
snake_case preferred, camelCase accepted as fallback. -/
def scopeFromDict (scope : JObj) : Scope where
  allow_paths := (dictGet scope "allow_paths").getD ((dictGet scope "allowPaths").getD (.arr []))
  allow_commands :=
    (dictGet scope "allow_commands").getD ((dictGet scope "allowCommands").getD (.arr []))
  allow_network_targets :=
    (dictGet scope "allow_network_targets").getD
      ((dictGet scope "allowNetworkTargets").getD (.arr []))

/-- `IntentLock.to_dict` (with `asdict` of the scope), the object whose
`json.dumps` is persisted by `set_intent_lock`. -/
def lockToDict (l : IntentLock) : Json :=
  .obj [("user_id", l.user_id), ("intent_text", l.intent_text),
        ("scope", .obj [("allow_paths", l.scope.allow_paths),
                        ("allow_commands", l.scope.allow_commands),
                        ("allow_network_targets", l.scope.allow_network_targets)]),
        ("passphrase_hash", l.passphrase_hash), ("created_at", l.created_at)]

/-- `set_intent_lock` from `cord_engine/intent_lock.py`, for the case where
the scope is passed as a dict; the creation timestamp is an explicit
parameter.  Raises `ValueError` when any of the three strings is empty.
The persisted file content is `lockToDict` of the returned lock. -/
def set_intent_lock (user_id passphrase intent_text : String) (scope : JObj)
    (created_at : String) : Except PyErr IntentLock :=
  if user_id == "" || passphrase == "" || intent_text == "" then .error .valueError
  else
    .ok { user_id := .str user_id, intent_text := .str intent_text,
          scope := scopeFromDict scope,
          passphrase_hash := .str (sha256Hex passphrase),
          created_at := .str created_at }

/-- `load_intent_lock` from `cord_engine/intent_lock.py`.  Only
`JSONDecodeError` and `KeyError` are caught (yielding `none`); a file whose
top level or `scope` value is a non-dict raises `AttributeError`.  Note the
scope keys are read under their snake_case names only. -/
def load_intent_lock (file : Option LogLine) : Except PyErr (Option IntentLock) :=
  match file with
  | none => .ok none
  | some .bad => .ok none
  | some (.val (.obj data)) =>
    match (dictGet data "scope").getD (.obj []) with
    | .obj sd =>
      let scope : Scope :=
        { allow_paths := (dictGet sd "allow_paths").getD (.arr [])
          allow_commands := (dictGet sd "allow_commands").getD (.arr [])
          allow_network_targets := (dictGet sd "allow_network_targets").getD (.arr []) }
      match dictGet data "user_id", dictGet data "intent_text",
            dictGet data "passphrase_hash" with
      | some u, some itx, some ph =>
        .ok (some { user_id := u, intent_text := itx, scope := scope,
                    passphrase_hash := ph,
                    created_at := (dictGet data "created_at").getD (.str "") })
      | _, _, _ => .ok none
    | _ => .error .attrError
  | some (.val _) => .error .attrError

/-! ## models.py — Proposal and Verdict -/

/-- `Proposal` dataclass from `models.py` (after `__post_init__`: the
string fields are non-None; the optional `target_path`/`network_target`
keep their `None`). -/
structure Proposal where
  text : String := ""
  action_type : String := "unknown"
  target_path : Option String := none
  network_target : Option String := none
  grants : List String := []
  session_intent : String := ""
  context : JObj := []
  tool_name : String := ""
  source : String := "agent"
  raw_input : String := ""

/-- `Decision.value`. -/
def Decision.value : Decision → String
  | .ALLOW => "ALLOW"
  | .CHALLENGE => "CHALLENGE"
  | .CONTAIN => "CONTAIN"
  | .BLOCK => "BLOCK"

/-- `Verdict` dataclass from `models.py`. -/
structure Verdict where
  decision : Decision
  score : Rat
  risk_profile : List (String × Rat) := []
  reasons : List String := []
  alternatives : List String := []
  article_violations : List String := []
  log_id : String := ""

/-! ## Shared Python-semantics helpers for the checks -/

/-- Python substring test `needle in hay`. -/
def strContains (hay needle : String) : Bool :=
  let h := toCps hay
  let n := toCps needle
  (List.range (h.length + 1)).any (fun i => n.isPrefixOf (h.drop i))

/-- `str.lower()` (ASCII fragment; every scanned keyword is ASCII). -/
def pyLower (s : String) : String := ofCps ((toCps s).map asciiLower)

/-- Python truthiness of a JSON-shaped value. -/
def pyTruthy : Json → Bool
  | .null => false
  | .bool b => b
  | .num q => q != 0
  | .str s => s != ""
  | .arr l => !l.isEmpty
  | .obj o => !o.isEmpty

/-- `context.get(k)` / `context.get(k, False)` used as a boolean. -/
def ctxTruthy (ctx : JObj) (k : String) : Bool :=
  match dictGet ctx k with
  | some j => pyTruthy j
  | none => false

/-- Coerce a context value for a numeric comparison: numbers and bools
compare, anything else raises `TypeError` (as `"x" > 0` does). -/
def jsonAsNum : Json → Except PyErr Rat
  | .num p => .ok p
  | .bool true => .ok 1
  | .bool false => .ok 0
  | _ => .error .typeError

/-- `str(value)` for values interpolated into reason strings (deviation:
non-integer rationals are not rendered like Python floats; no theorem
inspects such a reason). -/
def pyShow : Json → String
  | .str s => s
  | .num q => dumpsNum q
  | .bool true => "True"
  | .bool false => "False"
  | .null => "None"
  | j => dumpsJson j

/-- `str.split()` with no separator: split on whitespace runs, no empties. -/
def splitWsAux : List Cp → List Cp → List (List Cp)
  | [], acc => if acc.isEmpty then [] else [acc.reverse]
  | c :: rest, acc =>
    if isSpaceChar c then
      if acc.isEmpty then splitWsAux rest [] else acc.reverse :: splitWsAux rest []
    else splitWsAux rest (c :: acc)

def pySplitWs (s : String) : List String := (splitWsAux (toCps s) []).map ofCps

/-- `str.strip()` (ASCII whitespace fragment). -/
def pyStrip (s : String) : String :=
  ofCps ((((toCps s).dropWhile isSpaceChar).reverse.dropWhile isSpaceChar).reverse)

def ICASE : ReFlags := { ignoreCase := true }

def ICASE_DOTALL : ReFlags := { ignoreCase := true, dotAll := true }

/-- The `for signal in signals: if signal in text: score += per;
reasons.append(mk signal)` loop shared by several checks. -/
def scanSignals (signals : List String) (text : String) (per : Rat)
    (mk : String → String) : Rat × List String :=
  signals.foldl
    (fun acc sig => if strContains text sig then (acc.1 + per, acc.2 ++ [mk sig]) else acc)
    (0, [])

/-! ## protocols.py — the fourteen dimension checks -/

def short_term_signals : List String :=
  ["quick fix", "hack around", "skip test", "ignore warning",
   "temporary workaround", "just ship it", "no time to",
   "deal with later", "tech debt", "shortcut"]

/-- `check_prime_directive`. -/
def check_prime_directive (p : Proposal) : CheckResult :=
  let text := pyLower p.text
  let sr := scanSignals short_term_signals text 1
    (fun sig => "Short-term signal detected: \x27" ++ sig ++
      "\x27 — may conflict with long-term interests")
  let sr :=
    if ctxTruthy p.context "bypasses_review" then
      (sr.1 + 3/2, sr.2 ++ ["Action bypasses review process — threatens long-term quality"])
    else sr
  { dimension := "long_term_alignment", article := "Article I — Prime Directive",
    score := min sr.1 3, reasons := sr.2 }

def deception_signals : List String := ["hide from", "cover up", "mislead", "fake", "fabricate"]

/-- `check_moral_constraints`. -/
def check_moral_constraints (p : Proposal) : CheckResult :=
  if reTestStr ICASE moralBlockRe p.text then
    { dimension := "moral_check", article := "Article II — Moral Constraints",
      score := 5,
      reasons := ["Moral violation detected — Article II prohibits this action"],
      hard_block := true }
  else
    let sr := scanSignals deception_signals (pyLower p.text) 2
      (fun sig => "Deception signal: \x27" ++ sig ++ "\x27")
    { dimension := "moral_check", article := "Article II — Moral Constraints",
      score := min sr.1 5, reasons := sr.2,
      hard_block := Decidable.decide (4 ≤ sr.1) }

def fabrication_signals : List String :=
  ["make up", "invent data", "fake results", "fabricate",
   "hallucinate", "pretend", "assume without"]

/-- `check_truth_integrity`. -/
def check_truth_integrity (p : Proposal) : CheckResult :=
  let text := pyLower p.text
  let sr := scanSignals fabrication_signals text 2
    (fun sig => "Truth violation: \x27" ++ sig ++ "\x27 — manufactured certainty is deception")
  let sr :=
    if ctxTruthy p.context "unverified_data" then
      (sr.1 + 1, sr.2 ++ ["Action relies on unverified data — Article III requires verification"])
    else sr
  { dimension := "truth_check", article := "Article III — Truth & Intellectual Integrity",
    score := min sr.1 3, reasons := sr.2 }

/-- `check_consequence_analysis`. -/
def check_consequence_analysis (p : Proposal) : CheckResult :=
  let text := pyLower p.text
  let is_high_impact := reTestStr ICASE highImpactRe text
  let has_analysis := ctxTruthy p.context "consequence_analysis_done"
  let sr : Rat × List String :=
    if is_high_impact && !has_analysis then
      (2, ["High-impact action without documented consequence analysis"])
    else (0, [])
  let sr :=
    if ctxTruthy p.context "no_rollback_plan" && is_high_impact then
      (sr.1 + 1, sr.2 ++ ["No rollback plan for irreversible action"])
    else sr
  { dimension := "consequence_analysis", article := "Article IV — Proactive Reasoning",
    score := min sr.1 3, reasons := sr.2 }

/-- `check_sustainability`. -/
def check_sustainability (p : Proposal) : CheckResult :=
  let sr : Rat × List String :=
    if ctxTruthy p.context "exceeds_capacity" then
      (2, ["Action exceeds stated capacity limits — growth without sustainability is destruction"])
    else (0, [])
  let sr :=
    if ctxTruthy p.context "burnout_risk" then
      (sr.1 + 3/2, sr.2 ++ ["Burnout risk flagged — CORD builds people up, never burns them out"])
    else sr
  { dimension := "sustainability_check", article := "Article V — Human Optimization Mandate",
    score := min sr.1 3, reasons := sr.2 }

/-- `check_financial_risk` — the `amount > 0` comparison can raise
`TypeError` on a non-numeric `financial_amount`. -/
def check_financial_risk (p : Proposal) : Except PyErr CheckResult :=
  let sr : Rat × List String :=
    if reTestStr ICASE financialRiskRe p.text then
      (2, ["Financial risk pattern detected — requires structured assessment"])
    else (0, [])
  let amount := (dictGet p.context "financial_amount").getD (.num 0)
  match jsonAsNum amount with
  | .error e => .error e
  | .ok a =>
    let sr :=
      if 0 < a then
        let sr :=
          if !ctxTruthy p.context "roi_evaluated" then
            (sr.1 + 3/2, sr.2 ++ ["Financial action ($" ++ pyShow amount ++ ") without ROI evaluation"])
          else sr
        if ctxTruthy p.context "impulsive" then
          (sr.1 + 2, sr.2 ++ ["Impulsive financial behavior detected — every dollar is a decision"])
        else sr
      else sr
    .ok { dimension := "financial_risk", article := "Article VI — Financial Stewardship Protocol",
          score := min sr.1 4, reasons := sr.2 }

def elevatedGrantMarkers : List String := ["admin", "sudo", "root", "write:system"]

/-- `check_security`. -/
def check_security (p : Proposal) : CheckResult :=
  let text := p.text
  let sr : Rat × List String :=
    if reTestStr ICASE injectionRe text then
      (2, ["Injection risk — hostile pattern detected"])
    else (0, [])
  let sr :=
    if reTestStr ICASE exfilRe text then
      (sr.1 + 2, sr.2 ++ ["Data exfiltration risk — outbound data transfer detected"])
    else sr
  let sr :=
    if reTestStr ICASE secretsRe text then
      (sr.1 + 3/2, sr.2 ++ ["Secrets exposure risk — sensitive credential pattern detected"])
    else sr
  let dangerous := reTestStr ICASE highImpactRe text
  let elevated :=
    p.grants.any (fun g => elevatedGrantMarkers.any (fun m => strContains (pyLower g) m))
  let sr :=
    if dangerous && elevated then
      (sr.1 + 2, sr.2 ++ ["Privilege escalation risk — high-impact verb with elevated grants"])
    else if dangerous then
      (sr.1 + 1, sr.2 ++ ["High-impact verb detected — requires caution"])
    else sr
  let irreversible := reTestStr ICASE highImpactRe text
  let reversible_hint := ALLOWLIST_KEYWORDS.any (fun k => strContains (pyLower text) k)
  let sr :=
    if irreversible && !reversible_hint then
      (sr.1 + 2, sr.2 ++ ["Irreversible action without safety indicators (dry-run, preview, etc.)"])
    else sr
  let hard_block := Decidable.decide (4 ≤ sr.1)
  let reasons :=
    if hard_block then sr.2 ++ ["Security threat level critical — BLOCK enforced"] else sr.2
  { dimension := "security_check", article := "Article VII — Security & Privacy Doctrine",
    score := min sr.1 5, reasons := reasons, hard_block := hard_block }

def drift_signals : List String :=
  ["override constitution", "override protocols", "ignore rules",
   "bypass policy", "disable safety", "turn off checks",
   "skip validation", "modify core values", "change the rules"]

/-- `check_drift` — the loop returns on the first matching signal, with
`score = min(0.0 + 3.0, 5.0) = 3` and `hard_block`. -/
def check_drift (p : Proposal) : CheckResult :=
  match drift_signals.find? (fun sig => strContains (pyLower p.text) sig) with
  | some sig =>
    { dimension := "drift_check", article := "Article VIII — Learning & Adaptation",
      score := 3,
      reasons := ["Protocol drift attempt: \x27" ++ sig ++ "\x27 — Protocols I-III are immutable"],
      hard_block := true }
  | none =>
    { dimension := "drift_check", article := "Article VIII — Learning & Adaptation",
      score := 0, reasons := [] }

/-- `check_evaluation_framework` — the `>= 100` comparison can raise
`TypeError` on a non-numeric `financial_amount`. -/
def check_evaluation_framework (p : Proposal) : Except PyErr CheckResult :=
  let text := pyLower p.text
  match jsonAsNum ((dictGet p.context "financial_amount").getD (.num 0)) with
  | .error e => .error e
  | .ok a =>
    let financial_significant := Decidable.decide (100 ≤ a)
    let is_significant :=
      reTestStr ICASE highImpactRe text || ctxTruthy p.context "significant_impact"
        || financial_significant
    let roi_done := ctxTruthy p.context "roi_evaluated"
    let risk_assessment_done := ctxTruthy p.context "risk_assessment_done" || roi_done
    let alternative_considered := ctxTruthy p.context "alternative_considered" || roi_done
    let consequences_stated := ctxTruthy p.context "consequences_stated" || roi_done
    let sr : Rat × List String :=
      if is_significant then
        let sr : Rat × List String :=
          if !risk_assessment_done then
            (1, ["Significant action without structured risk assessment (Art IX req 1)"])
          else (0, [])
        let sr :=
          if !alternative_considered then
            (sr.1 + 1/2, sr.2 ++ ["No alternative solution presented (Art IX req 2)"])
          else sr
        if !consequences_stated then
          (sr.1 + 1/2, sr.2 ++ ["Long-term consequences not documented (Art IX req 3)"])
        else sr
      else (0, [])
    .ok { dimension := "evaluation_framework",
          article := "Article IX — Command Evaluation Framework",
          score := min sr.1 3, reasons := sr.2 }

def escalation_signals : List String :=
  ["threaten", "ultimatum", "demand immediate", "or else", "final warning", "last chance"]

/-- `check_temperament`. -/
def check_temperament (p : Proposal) : CheckResult :=
  let sr := scanSignals escalation_signals (pyLower p.text) 1
    (fun sig => "Emotional escalation detected: \x27" ++ sig ++
      "\x27 — respond with empathetic clarity")
  { dimension := "temperament_check", article := "Article X — Temperament",
    score := min sr.1 2, reasons := sr.2 }

/-- `check_identity` — the reason embeds `match.group(0)`. -/
def check_identity (p : Proposal) : CheckResult :=
  let text := pyLower p.text
  match reFindStr ICASE identityRe text with
  | some m =>
    { dimension := "identity_check", article := "Article XI — Identity",
      score := 3,
      reasons := ["Identity violation: \x27" ++ m ++ "\x27 — CORD knows what it is"] }
  | none =>
    { dimension := "identity_check", article := "Article XI — Identity",
      score := 0, reasons := [] }

def imperative_verbs : List String :=
  ["ignore", "forget", "disregard", "override", "instead", "now do"]

/-- `check_prompt_injection` — scans text then raw input, one hit (score 4)
is enough; the softer external-source signal (1.5) only applies when the
pattern did not hit. -/
def check_prompt_injection (p : Proposal) : CheckResult :=
  let targets := [p.text] ++ (if p.raw_input != "" then [p.raw_input] else [])
  let sr : Rat × List String :=
    match targets.findSome? (fun t => reFindStr ICASE_DOTALL promptInjectionRe t) with
    | some m =>
      (4, ["Prompt injection attempt detected: \x27" ++ ofCps ((toCps m).take 60) ++
           "\x27 — external data is trying to hijack agent behavior"])
    | none => (0, [])
  let sr :=
    if p.source == "external" && sr.1 == 0 then
      let hits := imperative_verbs.countP (fun v => strContains (pyLower p.text) v)
      if 2 ≤ hits then
        (sr.1 + 3/2,
         sr.2 ++ ["External input contains multiple imperative override signals — " ++
                  "possible soft injection attempt"])
      else sr
    else sr
  { dimension := "prompt_injection", article := "Article VII — Security & Privacy Doctrine",
    score := min sr.1 5, reasons := sr.2, hard_block := Decidable.decide (4 ≤ sr.1) }

/-- `check_pii_leakage`. -/
def check_pii_leakage (p : Proposal) : CheckResult :=
  let scan_target := String.intercalate " " ([p.text, p.raw_input].filter (· != ""))
  let sf : Rat × List String :=
    policiesPiiPatterns.foldl
      (fun acc pr =>
        if reTestStr {} pr.2 scan_target then
          (acc.1 + (if pr.1 == "email" then 1 else 2), acc.2 ++ [pr.1])
        else acc)
      (0, [])
  let sfr : Rat × List String × List String :=
    if reTestStr ICASE piiFieldNamesRe scan_target then
      (sf.1 + 3/2, sf.2 ++ ["pii_field_names"],
       ["PII field names detected in payload — data schema exposure risk"])
    else (sf.1, sf.2, [])
  let score := sfr.1
  let found := sfr.2.1
  let reasons := sfr.2.2
  let reasons :=
    if !found.isEmpty then
      let pii_list := String.intercalate ", " (found.filter (· != "pii_field_names"))
      if pii_list != "" then
        reasons ++ ["PII detected in proposal: " ++ pii_list ++
                    " — verify consent before transmitting"]
      else reasons
    else reasons
  let outbound :=
    p.action_type == "network" || p.action_type == "communication"
      || p.action_type == "file_op"
  let sr : Rat × List String :=
    if 0 < score && outbound then
      (score * (3/2),
       reasons ++ ["PII detected in outbound action — transmission without redaction is a privacy violation"])
    else (score, reasons)
  { dimension := "pii_leakage", article := "Article VII — Security & Privacy Doctrine",
    score := min sr.1 5, reasons := sr.2 }

/-- `check_tool_risk` (the tier value in the reason text is rendered by
`dumpsNum`, so `3` where Python prints `3.0` — no theorem reads it). -/
def check_tool_risk (p : Proposal) : CheckResult :=
  if p.tool_name != "" then
    let tier := TOOL_RISK_TIERS (pyLower p.tool_name)
    let sr : Rat × List String :=
      if 0 < tier then
        (tier, ["Tool \x27" ++ p.tool_name ++ "\x27 has elevated baseline risk (tier score: " ++
                dumpsNum tier ++ ")"])
      else (0, [])
    let sr :=
      if pyLower p.tool_name == "exec" && p.grants.contains "shell" then
        (sr.1 + 1, sr.2 ++ ["exec + shell grant — highest risk combination"])
      else sr
    { dimension := "tool_risk", article := "Article IX — Command Evaluation Framework",
      score := min sr.1 4, reasons := sr.2 }
  else
    { dimension := "tool_risk", article := "Article IX — Command Evaluation Framework",
      score := 0, reasons := [] }

/-- `run_all_checks`: the fourteen checks in their declared order (a
`TypeError` raised by the financial or evaluation checks propagates). -/
def run_all_checks (p : Proposal) : Except PyErr (List CheckResult) :=
  match check_financial_risk p with
  | .error e => .error e
  | .ok fin =>
    match check_evaluation_framework p with
    | .error e => .error e
    | .ok evalFw =>
      .ok [check_prime_directive p, check_moral_constraints p, check_truth_integrity p,
           check_consequence_analysis p, check_sustainability p, fin, check_security p,
           check_drift p, evalFw, check_temperament p, check_identity p,
           check_prompt_injection p, check_pii_leakage p, check_tool_risk p]

/-! ## engine.py — the evaluation pipeline -/

/-- Step 1 (`engine._normalize`): strip the text, infer the action type
when it is empty or `unknown`. -/
def _classify_action (text : String) : String :=
  match ACTION_TYPE_HINTS.findSome?
      (fun h => if reTestStr ICASE h.2 text then some h.1 else none) with
  | some t => t
  | none => "unknown"

def engineNormalizeStep (p : Proposal) : Proposal :=
  let p := { p with text := pyStrip p.text }
  if p.action_type == "" || p.action_type == "unknown" then
    { p with action_type := _classify_action p.text }
  else p

/-- Step 2 (`engine._authenticate`). -/
def _authenticate (lock : Option IntentLock) : Option CheckResult :=
  match lock with
  | none =>
    some { dimension := "authentication", article := "CORD — Intent Lock", score := 2,
           reasons := ["No intent lock set — session purpose undefined, operating in restricted mode"] }
  | some _ => none

/-- The three scope predicates of `Scope`, taken as parameters:
`is_path_allowed` resolves filesystem paths and `is_command_allowed`
compiles user-supplied regex strings — both external to this model — and
`is_network_allowed` is grouped with them. -/
structure ScopeOracle where
  pathAllowed : String → Bool
  networkAllowed : String → Bool
  commandAllowed : String → Bool

/-- Step 3 (`engine._scope_check`). -/
def _scope_check (p : Proposal) (lock : Option IntentLock) (oracle : ScopeOracle) :
    Option CheckResult :=
  match lock with
  | none => none
  | some _ =>
    let sr : Rat × List String :=
      match p.target_path with
      | some tp =>
        if tp != "" && !oracle.pathAllowed tp then
          (2, ["Path \x27" ++ tp ++ "\x27 is outside allowed scope"])
        else (0, [])
      | none => (0, [])
    let sr :=
      match p.network_target with
      | some nt =>
        if nt != "" && !oracle.networkAllowed nt then
          (sr.1 + 2, sr.2 ++ ["Network target \x27" ++ nt ++ "\x27 is not in allowlist"])
        else sr
      | none => sr
    let sr :=
      if p.text != "" && (p.action_type == "command" || p.action_type == "system")
          && !oracle.commandAllowed p.text then
        (sr.1 + 1, sr.2 ++ ["Command not in allowed command patterns"])
      else sr
    if 0 < sr.1 then
      some { dimension := "scope_check", article := "CORD — Scope Enforcement",
             score := sr.1, reasons := sr.2, hard_block := Decidable.decide (4 ≤ sr.1) }
    else none

def stop_words : List String :=
  ["the", "a", "an", "to", "and", "or", "in", "on", "at", "for", "of", "is", "it", "do"]

def intentSynonyms : List (String × List String) :=
  [("update", ["edit", "modify", "change", "tweak", "revise", "fix", "patch", "write"]),
   ("publish", ["push", "deploy", "release", "ship", "upload"]),
   ("site", ["html", "page", "website", "web", "contact", "index", "manifesto", "architecture"]),
   ("api", ["api", "artificial", "persistent", "intelligence"]),
   ("build", ["compile", "make", "create", "construct"]),
   ("delete", ["remove", "drop", "purge", "clean", "wipe", "rm"])]

/-- Step 4 (`engine._intent_match`).  `lock.intent_text.lower()` raises
`AttributeError` when the loaded `intent_text` is not a string.  Word sets
are lists used through membership only. -/
def _intent_match (p : Proposal) (lock : Option IntentLock) :
    Except PyErr (Option CheckResult) :=
  match lock with
  | none => .ok none
  | some l =>
    match l.intent_text with
    | .str it =>
      let intent := pyLower it
      let text := pyLower p.text
      let session_intent := pyLower p.session_intent
      let intent_words := (pySplitWs intent).filter (fun w => !stop_words.contains w)
      let text_words := (pySplitWs text).filter (fun w => !stop_words.contains w)
      let expanded_intent :=
        intent_words ++ intent_words.flatMap (fun w =>
          intentSynonyms.flatMap (fun kv =>
            if w == kv.1 || kv.2.contains w then kv.2 ++ [kv.1] else []))
      let meaningful_overlap := text_words.any (fun w => expanded_intent.contains w)
      if session_intent != "" && session_intent == intent then .ok none
      else if meaningful_overlap then .ok none
      else
        .ok (some
          { dimension := "intent_drift", article := "CORD — Intent Alignment",
            score := 3/2,
            reasons := ["Proposal may drift from declared intent: \x27" ++ it ++ "\x27",
                        "No meaningful overlap between proposal and session intent"] })
    | _ => .error .attrError

/-- `engine._suggest_alternatives`. -/
def _suggest_alternatives (p : Proposal) (check_results : List CheckResult) :
    List String :=
  let text := pyLower p.text
  let allReasons := check_results.flatMap (·.reasons)
  let alternatives :=
    (if allReasons.any (fun r => strContains r "irreversi") then
      ["Run with --dry-run or --preview first to assess impact"] else [])
    ++ (if allReasons.any (fun r => strContains r "exfil") then
      ["Review data before sending — minimize what leaves the system"] else [])
    ++ (if allReasons.any (fun r => strContains (pyLower r) "financial") then
      ["Perform a structured ROI analysis before committing funds"] else [])
    ++ (if allReasons.any (fun r => strContains (pyLower r) "scope") then
      ["Update intent lock to expand scope if this action is intentional"] else [])
    ++ (if ["rm -rf", "delete", "wipe", "purge"].any (fun v => strContains text v) then
      ["Use a staging/trash approach instead of permanent deletion"] else [])
  if alternatives.isEmpty then
    ["No specific alternative needed — action appears within bounds"]
  else alternatives

/-- Python's `round(x, 2)` (round half to even; exact on the rationals
that reach it here). -/
def round2 (x : Rat) : Rat :=
  let y := x * 100
  let f : Int := ⌊y⌋
  let r := y - f
  (if r < 1/2 then f else if 1/2 < r then f + 1 else if f % 2 = 0 then f else f + 1) / 100

/-- The external state and library functions `evaluate` interacts with:
NFKC and base64 decoding (normalizer), timestamp parsing and the current
time (rate limiting), the scope predicates, the process redaction level,
the wall-clock timestamp written to the audit log, and the two files. -/
structure EvalEnv where
  nfkc : List Cp → List Cp
  b64 : List Cp → Option (List Cp)
  parseTs : String → Option Int
  now : Int
  oracle : ScopeOracle
  level : String
  ts : String
  lockFile : Option LogLine
  logFile : List LogLine

/-- `evaluate` from `cord_engine/engine.py`: the full pipeline, returning
the verdict and the audit-log file after the append.  Any uncaught Python
exception surfaces as `.error`. -/
def evaluate (env : EvalEnv) (proposal : Proposal) :
    Except PyErr (Verdict × List LogLine) :=
  let p := engineNormalizeStep proposal
  match normalize_proposal_text env.nfkc env.b64 (toCps p.text) (toCps p.raw_input) with
  | .error e => .error e
  | .ok tri =>
    let p := { p with text := ofCps tri.1, raw_input := ofCps tri.2 }
    match load_intent_lock env.lockFile with
    | .error e => .error e
    | .ok lock =>
      let auth_result := _authenticate lock
      let scope_result := _scope_check p lock env.oracle
      match _intent_match p lock with
      | .error e => .error e
      | .ok intent_result =>
        match check_rate_limit env.parseTs env.now 60 40 env.logFile with
        | .error e => .error e
        | .ok rl =>
          let rate_exceeded := rl.1
          let rate_count := rl.2.1
          let rate_per_min := rl.2.2
          let rate_result : Option CheckResult :=
            if rate_per_min > 30 || rate_exceeded then
              let rate_score := if rate_per_min > 30 then min (2 + rate_per_min / 30) 5 else 2
              some { dimension := "rate_anomaly",
                     article := "Article VII — Security & Privacy Doctrine",
                     score := rate_score,
                     reasons := ["Rate anomaly: " ++ toString rate_count ++
                       " proposals in last 60s (" ++ dumpsNum rate_per_min ++
                       "/min) — possible abuse loop or runaway agent"],
                     hard_block := rate_exceeded && Decidable.decide (60 < rate_per_min) }
            else none
          match run_all_checks p with
          | .error e => .error e
          | .ok protocol_results =>
            let all_results := protocol_results
              ++ (match auth_result with | some r => [r] | none => [])
              ++ (match scope_result with | some r => [r] | none => [])
              ++ (match intent_result with | some r => [r] | none => [])
              ++ (match rate_result with | some r => [r] | none => [])
            let base_score := compute_composite_score all_results
            let anomaly := detect_anomaly all_results
            let total_score := base_score + anomaly
            let decision := decide total_score all_results
            let reasons := collect_reasons all_results
            let violations := collect_violations all_results
            let alternatives := _suggest_alternatives p all_results
            let risk_profile :=
              (all_results.filter (fun r => 0 < r.score)).map (fun r => (r.dimension, r.score))
              ++ (if 0 < anomaly then [("anomaly_amplification", anomaly)] else [])
            let payload : JObj :=
              [("decision", .str decision.value),
               ("score", .num (round2 total_score)),
               ("risk_profile", .obj (risk_profile.map (fun kv => (kv.1, Json.num kv.2)))),
               ("reasons", .arr (reasons.map .str)),
               ("violations", .arr (violations.map .str)),
               ("proposal", .str p.text),
               ("action_type", .str p.action_type),
               ("target_path", match p.target_path with | some s => .str s | none => .null),
               ("network_target", match p.network_target with | some s => .str s | none => .null)]
            match append_log env.level env.ts payload env.logFile with
            | .error e => .error e
            | .ok lr =>
              .ok ({ decision := decision, score := round2 total_score,
                     risk_profile := risk_profile, reasons := reasons,
                     alternatives := alternatives, article_violations := violations,
                     log_id := lr.1 }, lr.2)

/-- The fourteen protocol-check results on the normalized `git status`
proposal (all clean; used by the quiet-log theorem below). -/
def gitStatusResults : List CheckResult :=
  [⟨"long_term_alignment", "Article I — Prime Directive", 0, [], false⟩,
   ⟨"moral_check", "Article II — Moral Constraints", 0, [], false⟩,
   ⟨"truth_check", "Article III — Truth & Intellectual Integrity", 0, [], false⟩,
   ⟨"consequence_analysis", "Article IV — Proactive Reasoning", 0, [], false⟩,
   ⟨"sustainability_check", "Article V — Human Optimization Mandate", 0, [], false⟩,
   ⟨"financial_risk", "Article VI — Financial Stewardship Protocol", 0, [], false⟩,
   ⟨"security_check", "Article VII — Security & Privacy Doctrine", 0, [], false⟩,
   ⟨"drift_check", "Article VIII — Learning & Adaptation", 0, [], false⟩,
   ⟨"evaluation_framework", "Article IX — Command Evaluation Framework", 0, [], false⟩,
   ⟨"temperament_check", "Article X — Temperament", 0, [], false⟩,
   ⟨"identity_check", "Article XI — Identity", 0, [], false⟩,
   ⟨"prompt_injection", "Article VII — Security & Privacy Doctrine", 0, [], false⟩,
   ⟨"pii_leakage", "Article VII — Security & Privacy Doctrine", 0, [], false⟩,
   ⟨"tool_risk", "Article IX — Command Evaluation Framework", 0, [], false⟩]

/-- A concrete quiet environment: no lock, empty audit log. -/
def quietEnv : EvalEnv :=
  { nfkc := fun s => s, b64 := fun _ => none, parseTs := fun _ => none, now := 0,
    oracle := ⟨fun _ => true, fun _ => true, fun _ => true⟩,
    level := "pii", ts := "2025-06-01T00:00:00+00:00", lockFile := none, logFile := [] }

/-- A concrete busy environment: no lock, 31 audit entries whose timestamps
parse into the rate window. -/
def busyEnv : EvalEnv :=
  { nfkc := fun s => s, b64 := fun _ => none, parseTs := fun _ => some 0, now := 0,
    oracle := ⟨fun _ => false, fun _ => false, fun _ => false⟩,
    level := "pii", ts := "2025-06-01T00:00:31+00:00", lockFile := none,
    logFile := List.replicate 31
      (.val (.obj [("timestamp", Json.str "2025-06-01T00:00:00+00:00")])) }

/-- A sequence of `append_log` calls: each element supplies the wall-clock
timestamp and payload of one call. -/
def appendAll (level : String) : List (String × JObj) → List LogLine →
    Except PyErr (List LogLine)
  | [], log => .ok log
  | (ts, e) :: rest, log =>
    match append_log level ts e log with
    | .ok (_, log') => appendAll level rest log'
    | .error err => .error err


/-- Well-formedness of a (score, reasons) accumulator pair as built by the
checks: the score is non-negative, and a positive score implies at least
one reason was recorded alongside it. -/
def PairWF (sr : Rat × List String) : Prop := 0 ≤ sr.1 ∧ (0 < sr.1 → sr.2 ≠ [])

/-- Well-formedness of an emitted `CheckResult`: non-negative score, and a
flagged result (positive score or hard block) carries at least one reason. -/
def RWF (r : CheckResult) : Prop :=
  0 ≤ r.score ∧ ((0 < r.score ∨ r.hard_block = true) → r.reasons ≠ [])

end Cord

namespace Cord

/-! ## Scoring lemmas -/

lemma one_le_WEIGHTS (d : String) : (1 : Rat) ≤ WEIGHTS d := by
  unfold WEIGHTS
  split <;> norm_num

lemma has_hard_block_append (R S : List CheckResult) :
    has_hard_block (R ++ S) = (has_hard_block R || has_hard_block S) := by
  simp [has_hard_block, List.any_append]

lemma foldl_score_shift (l : List CheckResult) (a : Rat) :
    l.foldl (fun total r => total + r.score * WEIGHTS r.dimension) a
      = a + l.foldl (fun total r => total + r.score * WEIGHTS r.dimension) 0 := by
  induction l generalizing a with
  | nil => simp
  | cons x xs ih =>
    simp only [List.foldl_cons]
    rw [ih (a + x.score * WEIGHTS x.dimension), ih (0 + x.score * WEIGHTS x.dimension)]
    ring

lemma compute_composite_score_append (R S : List CheckResult) :
    compute_composite_score (R ++ S)
      = compute_composite_score R + compute_composite_score S := by
  unfold compute_composite_score
  rw [List.foldl_append, foldl_score_shift]

/-- A helper for the monotone decision map: with no hard block, `decide`
is the pure threshold map. -/
lemma decide_no_hard_block (s : Rat) (R : List CheckResult)
    (h : has_hard_block R = false) :
    decide s R = if s ≥ 7 then .BLOCK else if s ≥ 5 then .CONTAIN else .ALLOW := by
  unfold decide
  rw [h]
  simp only [Bool.false_eq_true, if_false, THRESHOLDS]
  split
  · rfl
  · split <;> rfl

lemma compute_composite_score_singleton (c : CheckResult) :
    compute_composite_score [c] = c.score * WEIGHTS c.dimension := by
  simp [compute_composite_score]

/-- The step function applied to the count of high signals in
`detect_anomaly` is monotone in that count. -/
lemma anomalyVal_mono {m n : Nat} (h : m ≤ n) :
    (if m ≥ 4 then (3 : Rat) else if m ≥ 3 then 2 else if m ≥ 2 then 1 else 0)
      ≤ (if n ≥ 4 then (3 : Rat) else if n ≥ 3 then 2 else if n ≥ 2 then 1 else 0) := by
  split_ifs <;> first | (exfalso; omega) | norm_num

lemma detect_anomaly_append_le (R : List CheckResult) (c : CheckResult) :
    detect_anomaly R ≤ detect_anomaly (R ++ [c]) := by
  unfold detect_anomaly
  simp only [List.filter_append, List.length_append]
  exact anomalyVal_mono (Nat.le_add_right _ _)

/-- With no hard block on either side, the decision map is monotone in the
composite score (ranks ordered ALLOW < CONTAIN < CHALLENGE < BLOCK). -/
lemma rank_decide_mono (s t : Rat) (hst : s ≤ t) (R S : List CheckResult)
    (hR : has_hard_block R = false) (hS : has_hard_block S = false) :
    (decide s R).rank ≤ (decide t S).rank := by
  rw [decide_no_hard_block s R hR, decide_no_hard_block t S hS]
  split_ifs <;> first | (exfalso; linarith) | simp [Decision.rank]

end Cord

namespace Cord

/-! ## Claim theorems: scoring (C2, C4, C7) -/

/-- C2: for every finite composite score and every list of CheckResults
containing at least one result with `hard_block` set, `decide` returns
BLOCK. -/
theorem hard_block_dominance (score : Rat) (R : List CheckResult)
    (h : ∃ r ∈ R, r.hard_block = true) : decide score R = .BLOCK := by
  have hb : has_hard_block R = true := by
    obtain ⟨r, hr, hrb⟩ := h
    simp only [has_hard_block, List.any_eq_true]
    exact ⟨r, hr, hrb⟩
  unfold decide
  rw [hb]
  rfl

/-- Witness for C2 at a concrete score and result list. -/
theorem hard_block_dominance_witness :
    decide 1000000 [⟨"moral_check", "Article II — Moral Constraints", 5, ["violation"], true⟩]
      = .BLOCK :=
  hard_block_dominance 1000000 _ ⟨_, List.mem_singleton.mpr rfl, rfl⟩

/-- C4: with the default thresholds and no hard-block result, composite 0
and 4.99 map to ALLOW, 5.00 and 6.99 to CONTAIN, 7.00 to BLOCK, and
CHALLENGE is never returned (the BLOCK threshold is checked first and
equals the CHALLENGE threshold). -/
theorem default_threshold_boundaries (R : List CheckResult)
    (h : has_hard_block R = false) :
    decide 0 R = .ALLOW ∧ decide (499/100) R = .ALLOW ∧ decide 5 R = .CONTAIN
      ∧ decide (699/100) R = .CONTAIN ∧ decide 7 R = .BLOCK
      ∧ ∀ s : Rat, decide s R ≠ .CHALLENGE := by
  refine ⟨?_, ?_, ?_, ?_, ?_, ?_⟩
  · rw [decide_no_hard_block _ _ h]; norm_num
  · rw [decide_no_hard_block _ _ h]; norm_num
  · rw [decide_no_hard_block _ _ h]; norm_num
  · rw [decide_no_hard_block _ _ h]; norm_num
  · rw [decide_no_hard_block _ _ h]; norm_num
  · intro s
    rw [decide_no_hard_block _ _ h]
    split_ifs <;> simp

/-- Witness for C4 on the empty result list. -/
theorem default_threshold_boundaries_witness :
    decide 0 ([] : List CheckResult) = .ALLOW
      ∧ decide (499/100) ([] : List CheckResult) = .ALLOW
      ∧ decide 5 ([] : List CheckResult) = .CONTAIN
      ∧ decide (699/100) ([] : List CheckResult) = .CONTAIN
      ∧ decide 7 ([] : List CheckResult) = .BLOCK
      ∧ ∀ s : Rat, decide s ([] : List CheckResult) ≠ .CHALLENGE :=
  default_threshold_boundaries [] rfl

/-- C7: appending a flagged (score > 0, not hard-blocking) CheckResult can
only move the decision computed by the pipeline (weighted composite plus
anomaly amplification, then `decide`) toward BLOCK, in the order
ALLOW < CONTAIN < CHALLENGE < BLOCK. -/
theorem decision_monotonicity (R : List CheckResult) (c : CheckResult)
    (hs : 0 < c.score) (hb : c.hard_block = false) :
    (decisionFor R).rank ≤ (decisionFor (R ++ [c])).rank := by
  unfold decisionFor
  by_cases hR : has_hard_block R = true
  · have hRc : has_hard_block (R ++ [c]) = true := by
      rw [has_hard_block_append, hR]; rfl
    unfold decide
    rw [hR, hRc]
    simp
  · have hR' : has_hard_block R = false := by
      simpa using hR
    have hRc : has_hard_block (R ++ [c]) = false := by
      rw [has_hard_block_append, hR']
      simp [has_hard_block, hb]
    apply rank_decide_mono _ _ _ _ _ hR' hRc
    have h1 : compute_composite_score R < compute_composite_score (R ++ [c]) := by
      rw [compute_composite_score_append, compute_composite_score_singleton]
      have hw : (0 : Rat) < WEIGHTS c.dimension :=
        lt_of_lt_of_le one_pos (one_le_WEIGHTS _)
      nlinarith
    have h2 : detect_anomaly R ≤ detect_anomaly (R ++ [c]) :=
      detect_anomaly_append_le R c
    linarith

/-- Witness for C7 at a concrete result list and flagged result. -/
theorem decision_monotonicity_witness :
    (decisionFor [⟨"truth_check", "Article III", 2, ["a"], false⟩]).rank
      ≤ (decisionFor ([⟨"truth_check", "Article III", 2, ["a"], false⟩]
          ++ [⟨"security_check", "Article VII", 3, ["b"], false⟩])).rank :=
  decision_monotonicity _ _ (by norm_num) rfl

end Cord

namespace Cord

/-! ## Dictionary lemmas -/

lemma dictGet_dictSet_same (o : JObj) (k : String) (v : Json) :
    dictGet (dictSet o k v) k = some v := by
  induction o with
  | nil => simp [dictSet, dictGet]
  | cons kv rest ih =>
    obtain ⟨k', v'⟩ := kv
    cases h : k' == k with
    | true => simp [dictSet, dictGet, h]
    | false => simp [dictSet, dictGet, h, ih]

lemma dictGet_dictSet_ne (o : JObj) {k k' : String} (v : Json) (hne : k' ≠ k) :
    dictGet (dictSet o k v) k' = dictGet o k' := by
  induction o with
  | nil => simp [dictSet, dictGet, Ne.symm hne]
  | cons kv rest ih =>
    obtain ⟨ka, va⟩ := kv
    cases h : ka == k with
    | true =>
      have : ka = k := by simpa using h
      subst this
      simp [dictSet, dictGet, h, Ne.symm hne, hne]
    | false => simp [dictSet, dictGet, h, ih]

lemma dictPop_dictSet (o : JObj) {k : String} (v : Json) (h : dictGet o k = none) :
    dictPop (dictSet o k v) k = o := by
  induction o with
  | nil => simp [dictSet, dictPop]
  | cons kv rest ih =>
    obtain ⟨ka, va⟩ := kv
    cases hk : ka == k with
    | true =>
      exfalso
      simp [dictGet, hk] at h
    | false =>
      simp only [dictGet, hk] at h
      simp [dictSet, dictPop, hk, ih h]

lemma dictGet_none_forall {o : JObj} {k : String} (h : dictGet o k = none) :
    ∀ kv ∈ o, kv.1 ≠ k := by
  induction o with
  | nil => simp
  | cons kv rest ih =>
    obtain ⟨ka, va⟩ := kv
    cases hk : ka == k with
    | true => simp [dictGet, hk] at h
    | false =>
      simp only [dictGet, hk] at h
      intro p hp
      rcases List.mem_cons.mp hp with hp | hp
      · subst hp
        simpa using hk
      · exact ih h p hp

lemma dictExtend_get_notin : ∀ (b a : JObj) (k : String),
    (∀ kv ∈ b, kv.1 ≠ k) → dictGet (dictExtend a b) k = dictGet a k := by
  intro b
  induction b with
  | nil =>
    intro a k h
    rfl
  | cons kv bs ih =>
    intro a k h
    simp only [dictExtend, List.foldl_cons] at ih ⊢
    rw [ih (dictSet a kv.1 kv.2) k (fun p hp => h p (List.mem_cons_of_mem _ hp))]
    exact dictGet_dictSet_ne a kv.2 (Ne.symm (h kv (List.mem_cons_self _ _)))

lemma sanitizeField_get_none (level : String) {s : JObj} (f : String) {k : String}
    (hs : dictGet s k = none) :
    dictGet (sanitizeField level s f) k = none := by
  unfold sanitizeField
  cases hg : dictGet s f with
  | none => simpa using hs
  | some j =>
    cases j <;> try simpa using hs
    case str v =>
      have hfk : k ≠ f := by
        intro he
        subst he
        rw [hs] at hg
        exact Option.noConfusion hg
      rw [dictGet_dictSet_ne _ _ hfk]
      exact hs

lemma sanitizeEntry_get_none (level : String) {e : JObj} {k : String}
    (h : dictGet e k = none) :
    dictGet (sanitizeEntry level e) k = none := by
  unfold sanitizeEntry
  simp only [List.foldl_cons, List.foldl_nil]
  exact sanitizeField_get_none level "path"
    (sanitizeField_get_none level "text" (sanitizeField_get_none level "proposal" h))

end Cord

namespace Cord

/-! ## Audit chain lemmas -/

lemma json_str_bne_self (s : String) :
    (some (Json.str s) != some (Json.str s)) = false := by
  have h2 : (some (Json.str s) == some (Json.str s)) = true := by
    show jsonBeq (Json.str s) (Json.str s) = true
    simp [jsonBeq]
  simp [bne, h2]

lemma append_log_eq (level ts : String) (e : JObj) (log : List LogLine) (h : String)
    (hprev : getPrevHash log = .ok (.str h)) :
    append_log level ts e log
      = .ok (newHash level ts e h, log ++ [.val (.obj (newEntry level ts e h))]) := by
  unfold append_log
  rw [hprev]
  rfl

lemma newEntry_get_prev (level ts : String) (e : JObj) (h : String)
    (hpn : dictGet e "prev_hash" = none) :
    dictGet (newEntry level ts e h) "prev_hash" = some (.str h) := by
  unfold newEntry
  rw [dictGet_dictSet_ne _ _ (by decide : "prev_hash" ≠ "entry_hash")]
  unfold newBase
  rw [dictExtend_get_notin _ _ _ (dictGet_none_forall (sanitizeEntry_get_none level hpn))]
  rfl

lemma newBase_get_eh_none (level ts : String) (e : JObj) (h : String)
    (hen : dictGet e "entry_hash" = none) :
    dictGet (newBase level ts e h) "entry_hash" = none := by
  unfold newBase
  rw [dictExtend_get_notin _ _ _ (dictGet_none_forall (sanitizeEntry_get_none level hen))]
  rfl

lemma getPrevHash_concat (level ts : String) (e : JObj) (h : String) (log : List LogLine) :
    getPrevHash (log ++ [.val (.obj (newEntry level ts e h))])
      = .ok (.str (newHash level ts e h)) := by
  unfold getPrevHash
  rw [List.getLast?_append_cons]
  show (Except.ok ((dictGet (newEntry level ts e h) "entry_hash").getD (.str "GENESIS")) :
    Except PyErr Json) = _
  rw [show dictGet (newEntry level ts e h) "entry_hash"
        = some (.str (newHash level ts e h)) from dictGet_dictSet_same _ _ _]
  rfl

/-- Verifying one freshly appended entry: the running hash `h` matches the
entry's `prev_hash`, the stored hash matches the recomputation, and
verification continues with the new entry hash. -/
lemma verify_step (level ts : String) (e : JObj) (h : String)
    (hpn : dictGet e "prev_hash" = none) (hen : dictGet e "entry_hash" = none)
    (tail : List LogLine) (i : Nat) :
    verifyAux h (.val (.obj (newEntry level ts e h)) :: tail) i
      = verifyAux (newHash level ts e h) tail (i + 1) := by
  show (if dictGet (newEntry level ts e h) "prev_hash" != some (.str h) then
          Except.ok (false, i)
        else
          let stored := dictGet (newEntry level ts e h) "entry_hash"
          let o' := dictPop (newEntry level ts e h) "entry_hash"
          let recomputed := sha256Hex (h ++ dumpsJson (.obj o'))
          if stored != some (.str recomputed) then .ok (false, i)
          else verifyAux recomputed tail (i + 1)) = _
  rw [newEntry_get_prev level ts e h hpn, json_str_bne_self]
  simp only [Bool.false_eq_true, if_false]
  rw [show dictGet (newEntry level ts e h) "entry_hash"
        = some (.str (newHash level ts e h)) from dictGet_dictSet_same _ _ _]
  rw [show dictPop (newEntry level ts e h) "entry_hash" = newBase level ts e h from
        dictPop_dictSet _ _ (newBase_get_eh_none level ts e h hen)]
  rw [show sha256Hex (h ++ dumpsJson (.obj (newBase level ts e h))) = newHash level ts e h
        from rfl]
  rw [json_str_bne_self]
  simp

/-- The chained-append invariant: appending payloads free of the reserved
keys to a file whose tail hash is `h` and which verifies cleanly produces a
file that verifies cleanly end to end. -/
lemma appendAll_verify (level : String) :
    ∀ (ps : List (String × JObj)) (log : List LogLine) (h : String),
      (∀ p ∈ ps, dictGet p.2 "prev_hash" = none ∧ dictGet p.2 "entry_hash" = none) →
      getPrevHash log = .ok (.str h) →
      (∀ tail i, verifyAux "GENESIS" (log ++ tail) i = verifyAux h tail (i + log.length)) →
      ∃ log', appendAll level ps log = .ok log'
        ∧ verify_chain log' = .ok (true, log.length + ps.length) := by
  intro ps
  induction ps with
  | nil =>
    intro log h _ _ hch
    refine ⟨log, rfl, ?_⟩
    have := hch [] 0
    simp only [List.append_nil] at this
    unfold verify_chain
    rw [this]
    simp [verifyAux]
  | cons p rest ih =>
    intro log h hps hprev hch
    obtain ⟨ts, e⟩ := p
    have hpn := (hps _ (List.mem_cons_self _ _)).1
    have hen := (hps _ (List.mem_cons_self _ _)).2
    have happ := append_log_eq level ts e log h hprev
    have hch' : ∀ tail i,
        verifyAux "GENESIS"
            ((log ++ [LogLine.val (Json.obj (newEntry level ts e h))]) ++ tail) i
          = verifyAux (newHash level ts e h) tail
              (i + (log ++ [LogLine.val (Json.obj (newEntry level ts e h))]).length) := by
      intro tail i
      rw [List.append_assoc, hch]
      show verifyAux h (LogLine.val (Json.obj (newEntry level ts e h)) :: tail)
            (i + log.length) = _
      rw [verify_step level ts e h hpn hen]
      simp only [List.length_append, List.length_singleton]
      ring_nf
    obtain ⟨log', hall, hver⟩ :=
      ih (log ++ [LogLine.val (Json.obj (newEntry level ts e h))]) (newHash level ts e h)
        (fun q hq => hps q (List.mem_cons_of_mem _ hq))
        (getPrevHash_concat level ts e h log) hch'
    refine ⟨log', ?_, ?_⟩
    · simp only [appendAll]
      rw [happ]
      exact hall
    · rw [hver]
      congr 2
      simp only [List.length_append, List.length_singleton, List.length_cons,
        List.length_nil]
      omega

end Cord

namespace Cord

/-! ## Claim theorems: audit log (C1, C10) -/

/-- C1 (amended): appending any sequence of payload dicts that avoid the
reserved keys `prev_hash` and `entry_hash` to an initially empty or missing
audit-log file makes a subsequent `verify_chain` return `(true, n)` with
`n` the number of appended entries. -/
theorem audit_chain_integrity (level : String) (ps : List (String × JObj))
    (hps : ∀ p ∈ ps, dictGet p.2 "prev_hash" = none ∧ dictGet p.2 "entry_hash" = none) :
    ∃ log, appendAll level ps [] = .ok log ∧ verify_chain log = .ok (true, ps.length) := by
  have h := appendAll_verify level ps [] "GENESIS" hps rfl
    (by intro tail i; simp)
  simpa using h

/-- Witness for C1 (amended) on two concrete payloads. -/
theorem audit_chain_integrity_witness :
    ∃ log, appendAll "pii"
        [("2025-06-01T00:00:00+00:00", [("decision", Json.str "ALLOW")]),
         ("2025-06-01T00:00:01+00:00", [("score", Json.num 9)])] [] = .ok log
      ∧ verify_chain log = .ok (true, 2) :=
  audit_chain_integrity "pii" _ (by
    intro p hp
    rcases List.mem_cons.mp hp with rfl | hp
    · exact ⟨rfl, rfl⟩
    rcases List.mem_cons.mp hp with rfl | hp
    · exact ⟨rfl, rfl⟩
    cases hp)

/-- C1 counterexample: the claim as stated quantifies over every payload
dictionary; a payload carrying its own `prev_hash` key makes the very first
appended entry fail verification — `verify_chain` returns `(false, 0)`,
not `(true, 1)`. -/
theorem audit_chain_integrity_cex :
    (appendAll "pii" [("2025-06-01T00:00:00+00:00", [("prev_hash", Json.str "X")])] []).bind
        verify_chain
      = .ok (false, 0) := by
  rfl

/-- C10 (amended): when the audit-log file's last line is not valid JSON,
or parses to a JSON *object* lacking an `entry_hash` field, `append_log`
(for a payload without its own `prev_hash` key) does not fail and writes
the new entry with `prev_hash` set to the literal `GENESIS`. -/
theorem append_log_corrupt_tail (level ts : String) (entry : JObj) (log : List LogLine)
    (hp : dictGet entry "prev_hash" = none)
    (h : log.getLast? = some .bad
         ∨ ∃ o, log.getLast? = some (.val (.obj o)) ∧ dictGet o "entry_hash" = none) :
    ∃ eh le, append_log level ts entry log = .ok (eh, log ++ [.val (.obj le)])
      ∧ dictGet le "prev_hash" = some (.str "GENESIS") := by
  have hprev : getPrevHash log = .ok (.str "GENESIS") := by
    unfold getPrevHash
    rcases h with h | ⟨o, h, ho⟩
    · rw [h]
    · rw [h]
      show (Except.ok ((dictGet o "entry_hash").getD (.str "GENESIS")) : Except PyErr Json) = _
      rw [ho]
      rfl
  exact ⟨newHash level ts entry "GENESIS", newEntry level ts entry "GENESIS",
    append_log_eq level ts entry log "GENESIS" hprev,
    newEntry_get_prev level ts entry "GENESIS" hp⟩

/-- Witness for C10 (amended) on a log whose last line is unparseable. -/
theorem append_log_corrupt_tail_witness :
    ∃ eh le, append_log "pii" "2025-06-01T00:00:00+00:00" [("note", Json.str "x")] [.bad]
        = .ok (eh, [.bad] ++ [.val (.obj le)])
      ∧ dictGet le "prev_hash" = some (.str "GENESIS") :=
  append_log_corrupt_tail "pii" "2025-06-01T00:00:00+00:00" _ [.bad] rfl (Or.inl rfl)

/-- C10 counterexample: a last line that is valid JSON but not an object —
here the number `42` — also "lacks an entry_hash field", yet `append_log`
raises `AttributeError` (`parsed.get` on an `int`) instead of starting a
new chain. -/
theorem append_log_corrupt_tail_cex :
    append_log "pii" "2025-06-01T00:00:00+00:00" [("decision", Json.str "ALLOW")]
        [.val (Json.num 42)]
      = .error .attrError := by
  rfl

end Cord

namespace Cord

/-! ## Claim theorems: intent lock (C8) -/

/-- C8 (amended): the camelCase tolerance lives in `set_intent_lock`, not
the loader — a scope dict passed to `set_intent_lock` with
`allowPaths` / `allowCommands` / `allowNetworkTargets` yields exactly the
lock its snake_case twin yields, and the persisted file (written with
snake_case keys) loads back to the same lock.  `load_intent_lock` itself
reads only snake_case scope keys. -/
theorem set_lock_camel_aliases (user pass intent created : String)
    (paths cmds nets : Json)
    (hu : user ≠ "") (hp : pass ≠ "") (hi : intent ≠ "") :
    ∃ lock,
      set_intent_lock user pass intent
          [("allowPaths", paths), ("allowCommands", cmds), ("allowNetworkTargets", nets)]
          created = .ok lock
      ∧ set_intent_lock user pass intent
          [("allow_paths", paths), ("allow_commands", cmds), ("allow_network_targets", nets)]
          created = .ok lock
      ∧ load_intent_lock (some (.val (lockToDict lock))) = .ok (some lock) := by
  have hu' : (user == "") = false := by simpa using hu
  have hp' : (pass == "") = false := by simpa using hp
  have hi' : (intent == "") = false := by simpa using hi
  refine ⟨{ user_id := .str user, intent_text := .str intent,
            scope := ⟨paths, cmds, nets⟩,
            passphrase_hash := .str (sha256Hex pass), created_at := .str created }, ?_, ?_, ?_⟩
  · unfold set_intent_lock
    rw [hu', hp', hi']
    rfl
  · unfold set_intent_lock
    rw [hu', hp', hi']
    rfl
  · rfl

/-- Witness for C8 (amended) at concrete strings and allowlists. -/
theorem set_lock_camel_aliases_witness :
    ∃ lock,
      set_intent_lock "alex" "secret" "test"
          [("allowPaths", Json.arr [.str "/foo"]), ("allowCommands", Json.arr [.str "^git"]),
           ("allowNetworkTargets", Json.arr [])] "2025-06-01T00:00:00+00:00" = .ok lock
      ∧ set_intent_lock "alex" "secret" "test"
          [("allow_paths", Json.arr [.str "/foo"]), ("allow_commands", Json.arr [.str "^git"]),
           ("allow_network_targets", Json.arr [])] "2025-06-01T00:00:00+00:00" = .ok lock
      ∧ load_intent_lock (some (.val (lockToDict lock))) = .ok (some lock) :=
  set_lock_camel_aliases "alex" "secret" "test" "2025-06-01T00:00:00+00:00"
    (Json.arr [.str "/foo"]) (Json.arr [.str "^git"]) (Json.arr [])
    (by simp) (by simp) (by simp)

/-- C8 counterexample: `load_intent_lock` does *not* tolerate camelCase
scope keys — a lock file whose scope object uses `allowPaths` loads with an
empty `allow_paths` allowlist, while its snake_case twin loads the list. -/
theorem load_lock_camel_cex :
    (load_intent_lock (some (.val (Json.obj
        [("user_id", .str "u"), ("intent_text", .str "t"), ("passphrase_hash", .str "h"),
         ("scope", .obj [("allowPaths", .arr [.str "/foo"])])])))).map
        (fun o => o.map (fun l => l.scope.allow_paths)) = .ok (some (.arr []))
    ∧ (load_intent_lock (some (.val (Json.obj
        [("user_id", .str "u"), ("intent_text", .str "t"), ("passphrase_hash", .str "h"),
         ("scope", .obj [("allow_paths", .arr [.str "/foo"])])])))).map
        (fun o => o.map (fun l => l.scope.allow_paths)) = .ok (some (.arr [.str "/foo"])) :=
  ⟨rfl, rfl⟩

end Cord

namespace Cord

/-! ## Claim theorem: normalizer (C6) -/

/-- C6: the claim says `normalize` never raises on any input, with a
failing decode step a no-op for that token.  The code violates this: a
decimal (or hex) HTML entity whose value exceeds `0x10FFFF` — here
`&#1114112;` — reaches `chr`, which raises `ValueError`, and nothing
catches it.  (`nfkc` is the external NFKC step, the identity on this pure
ASCII input; the error is raised before the base64 step can run, for any
`b64`.) -/
theorem normalize_entity_overflow_raises (nfkc : List Cp → List Cp)
    (b64 : List Cp → Option (List Cp))
    (hn : nfkc (toCps "&#1114112;") = toCps "&#1114112;") :
    normalize nfkc b64 (toCps "&#1114112;") = .error .valueError := by
  unfold normalize
  rw [show (toCps "&#1114112;").isEmpty = false from rfl]
  simp only [Bool.false_eq_true, if_false, hn]
  rfl

/-- Witness for C6's failing input with the NFKC step instantiated to the
identity (its value on this ASCII string). -/
theorem normalize_entity_overflow_raises_witness :
    normalize (fun s => s) (fun _ => none) (toCps "&#1114112;") = .error .valueError :=
  normalize_entity_overflow_raises (fun s => s) (fun _ => none) rfl

end Cord

namespace Cord

/-! ## Claim theorems: the `git status` scenario (C5) -/

set_option maxHeartbeats 2000000 in
lemma normalize_git_status (nfkc : List Cp → List Cp) (b64 : List Cp → Option (List Cp))
    (hn : nfkc (toCps "git status") = toCps "git status") :
    normalize nfkc b64 (toCps "git status") = .ok (toCps "git status") := by
  unfold normalize
  rw [show (toCps "git status").isEmpty = false from rfl]
  simp only [Bool.false_eq_true, if_false, hn]
  with_unfolding_all rfl

lemma normalize_pt_git_status (nfkc : List Cp → List Cp) (b64 : List Cp → Option (List Cp))
    (hn : nfkc (toCps "git status") = toCps "git status") :
    normalize_proposal_text nfkc b64 (toCps "git status") (toCps "")
      = .ok (toCps "git status", []) := by
  unfold normalize_proposal_text
  rw [normalize_git_status nfkc b64 hn]
  rfl

set_option maxHeartbeats 4000000 in
/-- C5 (amended): evaluating `Proposal(text="git status")` with no intent
lock yields ALLOW — provided the rate-limit query reports at most 30/min
and not exceeded (at most 30 parseable entries in the window), and the
audit append can read a predecessor hash.  (With a busier log the
rate-anomaly check alone can drive the decision to BLOCK, see the
counterexample.)  The NFKC step, timestamp parsing and base64 decoding are
the external parameters of `EvalEnv`; NFKC fixes this ASCII text. -/
theorem git_status_quiet_allow (env : EvalEnv) (ph : String) (n : Nat) (r : Rat)
    (hn : env.nfkc (toCps "git status") = toCps "git status")
    (hlock : env.lockFile = none)
    (hrl : check_rate_limit env.parseTs env.now 60 40 env.logFile = .ok (false, n, r))
    (hr : r ≤ 30)
    (hprev : getPrevHash env.logFile = .ok (.str ph)) :
    ∃ v newLog, evaluate env { text := "git status" } = .ok (v, newLog)
      ∧ v.decision = .ALLOW := by
  obtain ⟨nfkc, b64, parseTs, now, oracle, level, ts, lockFile, logFile⟩ := env
  dsimp only at hn hlock hrl hprev
  subst hlock
  unfold evaluate
  rw [show engineNormalizeStep { text := "git status" }
        = { text := "git status", action_type := "command" } from by with_unfolding_all rfl]
  dsimp only
  rw [normalize_pt_git_status nfkc b64 hn]
  dsimp only
  rw [show load_intent_lock none = .ok none from rfl]
  dsimp only
  rw [hrl]
  dsimp only
  have hr30 : (Decidable.decide (r > 30)) = false := decide_eq_false (not_lt.mpr hr)
  rw [hr30]
  have hrac : run_all_checks
      { text := ofCps (toCps "git status"), action_type := "command",
        target_path := none, network_target := none, grants := [], session_intent := "",
        context := [], tool_name := "", source := "agent", raw_input := ofCps [] }
      = .ok gitStatusResults := by with_unfolding_all rfl
  rw [hrac]
  dsimp only
  rw [show _intent_match
        { text := ofCps (toCps "git status"), action_type := "command",
          target_path := none, network_target := none, grants := [], session_intent := "",
          context := [], tool_name := "", source := "agent", raw_input := ofCps [] }
        none = .ok none from rfl]
  dsimp only
  rw [append_log_eq level ts _ logFile ph hprev]
  exact ⟨_, _, rfl, by with_unfolding_all rfl⟩

/-- Witness for C5 (amended) in a concrete quiet environment. -/
theorem git_status_quiet_allow_witness :
    ∃ v newLog, evaluate quietEnv { text := "git status" } = .ok (v, newLog)
      ∧ v.decision = .ALLOW :=
  git_status_quiet_allow quietEnv "GENESIS" 0 0 rfl rfl rfl (by norm_num) rfl

set_option maxHeartbeats 4000000 in
/-- C5 counterexample: the claim as stated quantifies over every audit-log
state; with 31 entries inside the rate window the rate-anomaly result
(score `2 + 31/30`, weight 3) plus the missing-lock result pushes the
composite past the BLOCK threshold — `git status` is BLOCKed with no hard
block involved. -/
theorem git_status_busy_block_cex :
    (evaluate busyEnv { text := "git status" }).map (fun p => p.1.decision)
      = .ok .BLOCK := by
  with_unfolding_all rfl

end Cord

namespace Cord

/-! ## Claim theorems: redaction scope (C3) -/

lemma sanitizeField_get_other (level : String) (s : JObj) (f k : String) (hk : k ≠ f) :
    dictGet (sanitizeField level s f) k = dictGet s k := by
  unfold sanitizeField
  cases hg : dictGet s f with
  | none => rfl
  | some j =>
    cases j <;> try rfl
    case str v => exact dictGet_dictSet_ne _ _ hk

/-- C3 (amended): `append_log` applies `redact_pii` only to the
`proposal`, `text` and `path` fields of the payload; every other field —
in particular the `target_path`, `network_target` and `reasons` the
pipeline writes — is stored verbatim, so PII appearing there reaches the
audit entry unredacted even at level `pii` or `full`. -/
theorem redaction_field_scope (level : String) (entry : JObj) :
    (∀ k, k ≠ "proposal" → k ≠ "text" → k ≠ "path" →
        dictGet (sanitizeEntry level entry) k = dictGet entry k)
    ∧ (∀ s, dictGet entry "proposal" = some (.str s) →
        dictGet (sanitizeEntry level entry) "proposal"
          = some (.str (redact_pii level s))) := by
  constructor
  · intro k h1 h2 h3
    show dictGet (sanitizeField level
      (sanitizeField level (sanitizeField level entry "proposal") "text") "path") k = _
    rw [sanitizeField_get_other level _ "path" k h3,
        sanitizeField_get_other level _ "text" k h2,
        sanitizeField_get_other level _ "proposal" k h1]
  · intro s hs
    show dictGet (sanitizeField level
      (sanitizeField level (sanitizeField level entry "proposal") "text") "path")
        "proposal" = _
    rw [sanitizeField_get_other level _ "path" "proposal" (by decide),
        sanitizeField_get_other level _ "text" "proposal" (by decide)]
    unfold sanitizeField
    rw [hs]
    exact dictGet_dictSet_same _ _ _

/-- Witness for C3 (amended) on a concrete payload with an email in the
`proposal` field and an SSN-shaped `target_path`. -/
theorem redaction_field_scope_witness :
    dictGet (sanitizeEntry "pii"
        [("proposal", .str "mail alice@example.com"),
         ("target_path", .str "/data/123-45-6789.txt")]) "target_path"
      = dictGet [("proposal", Json.str "mail alice@example.com"),
                 ("target_path", Json.str "/data/123-45-6789.txt")] "target_path"
    ∧ dictGet (sanitizeEntry "pii"
        [("proposal", .str "mail alice@example.com"),
         ("target_path", .str "/data/123-45-6789.txt")]) "proposal"
      = some (.str (redact_pii "pii" "mail alice@example.com")) :=
  ⟨(redaction_field_scope "pii" _).1 "target_path" (by decide) (by decide) (by decide),
   (redaction_field_scope "pii" _).2 "mail alice@example.com" rfl⟩

set_option maxHeartbeats 4000000 in
/-- C3 counterexample: with the redaction level `pii`, the pipeline writes
an audit entry whose `target_path` field still contains a substring
matching the SSN regex — redaction only covers the `proposal`/`text`/`path`
fields, and the claim as stated (no PII match anywhere in any entry) is
false. -/
theorem redaction_soundness_cex :
    (match evaluate quietEnv { text := "hello", target_path := some "/data/123-45-6789.txt" } with
     | .ok pr =>
       (match pr.2.getLast? with
        | some (.val (.obj o)) =>
          (match dictGet o "target_path" with
           | some (.str s) => reTestStr {} auditSsnRe s
           | _ => false)
        | _ => false)
     | .error _ => false) = true := by
  with_unfolding_all rfl

end Cord

namespace Cord

/-! ## Claim C9: BLOCK verdicts carry reasons and alternatives -/

lemma pairWF_zero : PairWF (0, []) :=
  ⟨le_refl 0, fun h => absurd h (lt_irrefl 0)⟩

lemma pairWF_const {q : Rat} {msg : String} (hq : 0 ≤ q) : PairWF (q, [msg]) :=
  ⟨hq, fun _ => by simp⟩

lemma pairWF_step {c : Prop} [Decidable c] {sr : Rat × List String} {q : Rat} {msg : String}
    (h : PairWF sr) (hq : 0 ≤ q) :
    PairWF (if c then (sr.1 + q, sr.2 ++ [msg]) else sr) := by
  split
  · refine ⟨?_, fun _ => ?_⟩
    · show (0 : Rat) ≤ sr.1 + q
      have := h.1
      linarith
    · show sr.2 ++ [msg] ≠ []
      simp
  · exact h

lemma pairWF_init {c : Prop} [Decidable c] {q : Rat} {msg : String} (hq : 0 ≤ q) :
    PairWF (if c then (q, [msg]) else ((0 : Rat), ([] : List String))) := by
  split
  · exact pairWF_const hq
  · exact pairWF_zero

lemma pairWF_ite {c : Prop} [Decidable c] {x y : Rat × List String}
    (hx : PairWF x) (hy : PairWF y) : PairWF (if c then x else y) := by
  split
  · exact hx
  · exact hy

lemma pairWF_step2 {c1 c2 : Prop} [Decidable c1] [Decidable c2]
    {sr : Rat × List String} {q1 q2 : Rat} {m1 m2 : String}
    (h : PairWF sr) (h1 : 0 ≤ q1) (h2 : 0 ≤ q2) :
    PairWF (if c1 then (sr.1 + q1, sr.2 ++ [m1])
            else if c2 then (sr.1 + q2, sr.2 ++ [m2]) else sr) := by
  split
  · refine ⟨?_, fun _ => ?_⟩
    · show (0 : Rat) ≤ sr.1 + q1
      have := h.1
      linarith
    · show sr.2 ++ [m1] ≠ []
      simp
  · exact pairWF_step h h2

lemma scanSignals_wf (signals : List String) (text : String) (per : Rat)
    (mk : String → String) (hper : 0 ≤ per) :
    PairWF (scanSignals signals text per mk) := by
  unfold scanSignals
  suffices aux : ∀ (l : List String) (acc : Rat × List String), PairWF acc →
      PairWF (l.foldl
        (fun acc sig => if strContains text sig then (acc.1 + per, acc.2 ++ [mk sig]) else acc)
        acc) from aux signals (0, []) pairWF_zero
  intro l
  induction l with
  | nil => intro acc h; exact h
  | cons s rest ih =>
    intro acc h
    simp only [List.foldl_cons]
    exact ih _ (pairWF_step h hper)

lemma rwf_zero (d a : String) : RWF ⟨d, a, 0, [], false⟩ := by
  refine ⟨le_refl 0, fun hc => ?_⟩
  rcases hc with hc | hc
  · exact absurd hc (lt_irrefl 0)
  · simp at hc

lemma rwf_flag (d a : String) (q : Rat) (rs : List String) (s : String) (b : Bool)
    (hq : 0 ≤ q) : RWF ⟨d, a, q, s :: rs, b⟩ :=
  ⟨hq, fun _ => by simp⟩

lemma rwf_of_pair (d a : String) (sr : Rat × List String) (cap : Rat)
    (hcap : 0 < cap) (h : PairWF sr) :
    RWF ⟨d, a, min sr.1 cap, sr.2, false⟩ := by
  refine ⟨le_min h.1 hcap.le, fun hc => ?_⟩
  rcases hc with hc | hc
  · exact h.2 (lt_of_lt_of_le hc (min_le_left _ _))
  · simp at hc

lemma rwf_of_pair_hb (d a : String) (sr : Rat × List String) (cap : Rat)
    (hcap : 0 < cap) (h : PairWF sr) :
    RWF ⟨d, a, min sr.1 cap, sr.2, Decidable.decide (4 ≤ sr.1)⟩ := by
  refine ⟨le_min h.1 hcap.le, fun hc => ?_⟩
  rcases hc with hc | hc
  · exact h.2 (lt_of_lt_of_le hc (min_le_left _ _))
  · exact h.2 (lt_of_lt_of_le (by norm_num) (of_decide_eq_true hc))

lemma check_prime_wf (p : Proposal) : RWF (check_prime_directive p) := by
  unfold check_prime_directive
  exact rwf_of_pair _ _ _ _ (by norm_num)
    (pairWF_step (scanSignals_wf _ _ _ _ (by norm_num)) (by norm_num))

lemma check_truth_wf (p : Proposal) : RWF (check_truth_integrity p) := by
  unfold check_truth_integrity
  exact rwf_of_pair _ _ _ _ (by norm_num)
    (pairWF_step (scanSignals_wf _ _ _ _ (by norm_num)) (by norm_num))

lemma check_temperament_wf (p : Proposal) : RWF (check_temperament p) := by
  unfold check_temperament
  exact rwf_of_pair _ _ _ _ (by norm_num) (scanSignals_wf _ _ _ _ (by norm_num))

lemma check_consequence_wf (p : Proposal) : RWF (check_consequence_analysis p) := by
  unfold check_consequence_analysis
  exact rwf_of_pair _ _ _ _ (by norm_num)
    (pairWF_step (pairWF_init (by norm_num)) (by norm_num))

lemma check_sustainability_wf (p : Proposal) : RWF (check_sustainability p) := by
  unfold check_sustainability
  exact rwf_of_pair _ _ _ _ (by norm_num)
    (pairWF_step (pairWF_init (by norm_num)) (by norm_num))

lemma check_moral_wf (p : Proposal) : RWF (check_moral_constraints p) := by
  unfold check_moral_constraints
  split
  · exact rwf_flag _ _ _ _ _ _ (by norm_num)
  · exact rwf_of_pair_hb _ _ _ _ (by norm_num) (scanSignals_wf _ _ _ _ (by norm_num))

lemma check_drift_wf (p : Proposal) : RWF (check_drift p) := by
  unfold check_drift
  split
  · exact rwf_flag _ _ _ _ _ _ (by norm_num)
  · exact rwf_zero _ _

lemma check_identity_wf (p : Proposal) : RWF (check_identity p) := by
  unfold check_identity
  dsimp only
  split
  · exact rwf_flag _ _ _ _ _ _ (by norm_num)
  · exact rwf_zero _ _

lemma check_financial_wf (p : Proposal) (r : CheckResult)
    (h : check_financial_risk p = .ok r) : RWF r := by
  unfold check_financial_risk at h
  dsimp only at h
  split at h
  · exact absurd h (by simp)
  · injection h with h
    subst h
    exact rwf_of_pair _ _ _ _ (by norm_num)
      (pairWF_ite
        (pairWF_step (pairWF_step (pairWF_init (by norm_num)) (by norm_num)) (by norm_num))
        (pairWF_init (by norm_num)))

lemma check_evaluation_wf (p : Proposal) (r : CheckResult)
    (h : check_evaluation_framework p = .ok r) : RWF r := by
  unfold check_evaluation_framework at h
  dsimp only at h
  split at h
  · exact absurd h (by simp)
  · injection h with h
    subst h
    exact rwf_of_pair _ _ _ _ (by norm_num)
      (pairWF_ite
        (pairWF_step (pairWF_step (pairWF_init (by norm_num)) (by norm_num)) (by norm_num))
        pairWF_zero)

lemma rwf_sec (d a : String) (sr : Rat × List String) (msg : String) (h : PairWF sr) :
    RWF ⟨d, a, min sr.1 5,
         if Decidable.decide (4 ≤ sr.1) = true then sr.2 ++ [msg] else sr.2,
         Decidable.decide (4 ≤ sr.1)⟩ := by
  refine ⟨le_min h.1 (by norm_num), fun hc => ?_⟩
  split
  · simp
  · rcases hc with hc | hc
    · exact h.2 (lt_of_lt_of_le hc (min_le_left _ _))
    · exact h.2 (lt_of_lt_of_le (by norm_num) (of_decide_eq_true hc))

lemma pairWF_pos_init {q : Rat} {msg : String} :
    PairWF (if 0 < q then (q, [msg]) else ((0 : Rat), ([] : List String))) := by
  split
  · rename_i h
    exact pairWF_const h.le
  · exact pairWF_zero

set_option maxHeartbeats 1000000 in
lemma check_security_wf (p : Proposal) : RWF (check_security p) := by
  unfold check_security
  dsimp only
  exact rwf_sec _ _ _ _
    (pairWF_step
      (pairWF_step2
        (pairWF_step
          (pairWF_step (pairWF_init (by norm_num)) (by norm_num)) (by norm_num))
        (by norm_num) (by norm_num))
      (by norm_num))

lemma check_tool_wf (p : Proposal) : RWF (check_tool_risk p) := by
  unfold check_tool_risk
  dsimp only
  split
  · exact rwf_of_pair _ _ _ _ (by norm_num) (pairWF_step pairWF_pos_init (by norm_num))
  · exact rwf_zero _ _

lemma check_prompt_wf (p : Proposal) : RWF (check_prompt_injection p) := by
  unfold check_prompt_injection
  dsimp only
  refine rwf_of_pair_hb _ _ _ _ (by norm_num) (pairWF_ite (pairWF_step ?_ (by norm_num)) ?_)
  all_goals split
  all_goals first
    | exact pairWF_const (by norm_num)
    | exact pairWF_zero

set_option maxHeartbeats 2000000 in
lemma piiFold_spec (t : String) (F : Rat × List String)
    (hF : List.foldl
      (fun acc pr =>
        if reTestStr {} pr.2 t = true then
          (acc.1 + if pr.1 == "email" then (1 : Rat) else 2, acc.2 ++ [pr.1])
        else acc)
      ((0 : Rat), ([] : List String)) policiesPiiPatterns = F) :
    0 ≤ F.1 ∧ (F.1 ≤ 0 ∨
      (F.2.isEmpty = false ∧
       (String.intercalate ", " (List.filter (fun x => x != "pii_field_names") F.2) != "")
         = true)) := by
  subst hF
  simp only [policiesPiiPatterns, List.foldl_cons, List.foldl_nil]
  cases h1 : reTestStr {} policiesSsnRe t <;>
    cases h2 : reTestStr {} policiesCcRe t <;>
      cases h3 : reTestStr {} emailRe t <;>
        cases h4 : reTestStr {} phoneRe t <;>
          cases h5 : reTestStr {} ipAddressRe t <;>
            simp only [h1, h2, h3, h4, h5, Bool.false_eq_true, eq_self_iff_true,
              if_true, if_false] <;>
            with_unfolding_all decide

set_option maxHeartbeats 2000000 in
lemma check_pii_wf (p : Proposal) : RWF (check_pii_leakage p) := by
  unfold check_pii_leakage
  dsimp only
  generalize " ".intercalate (List.filter (fun x => x != "") [p.text, p.raw_input]) = t
  generalize hF : List.foldl
      (fun acc pr =>
        if reTestStr {} pr.2 t = true then
          (acc.1 + if pr.1 == "email" then (1 : Rat) else 2, acc.2 ++ [pr.1])
        else acc)
      ((0 : Rat), ([] : List String)) policiesPiiPatterns = F
  obtain ⟨H1, H2⟩ := piiFold_spec t F hF
  clear hF
  cases hc0 : reTestStr ICASE piiFieldNamesRe t with
  | false =>
    simp only [hc0, Bool.false_eq_true, if_false]
    refine ⟨?_, fun hc => ?_⟩
    · split
      · exact le_min (by nlinarith) (by norm_num)
      · exact le_min H1 (by norm_num)
    · rcases hc with hc | hc
      · rcases H2 with H2 | ⟨He, Hi⟩
        · exfalso
          split at hc
          · dsimp only at hc
            nlinarith [min_le_left (F.1 * (3/2)) (5 : Rat)]
          · dsimp only at hc
            nlinarith [min_le_left F.1 (5 : Rat)]
        · dsimp only
          simp only [He, Hi, Bool.not_false, eq_self_iff_true, if_true]
          split <;> simp
      · simp at hc
  | true =>
    simp only [hc0, eq_self_iff_true, if_true]
    refine ⟨?_, fun hc => ?_⟩
    · split
      · exact le_min (by nlinarith) (by norm_num)
      · exact le_min (by linarith) (by norm_num)
    · clear hc
      split
      · simp
      · simp
        split <;> simp

lemma run_all_checks_wf (p : Proposal) (rs : List CheckResult)
    (h : run_all_checks p = .ok rs) : ∀ r ∈ rs, RWF r := by
  unfold run_all_checks at h
  cases hfin : check_financial_risk p with
  | error e =>
    rw [hfin] at h
    exact absurd h (by simp)
  | ok fin =>
    rw [hfin] at h
    cases heval : check_evaluation_framework p with
    | error e =>
      rw [heval] at h
      exact absurd h (by simp)
    | ok evalFw =>
      rw [heval] at h
      injection h with h
      subst h
      intro r hr
      simp only [List.mem_cons, List.not_mem_nil, or_false] at hr
      rcases hr with rfl | rfl | rfl | rfl | rfl | rfl | rfl | rfl | rfl | rfl | rfl | rfl | rfl | rfl
      exacts [check_prime_wf p, check_moral_wf p, check_truth_wf p, check_consequence_wf p,
        check_sustainability_wf p, check_financial_wf p _ hfin, check_security_wf p,
        check_drift_wf p, check_evaluation_wf p _ heval, check_temperament_wf p,
        check_identity_wf p, check_prompt_wf p, check_pii_wf p, check_tool_wf p]

lemma auth_wf (lock : Option IntentLock) (r : CheckResult)
    (h : _authenticate lock = some r) : RWF r := by
  unfold _authenticate at h
  split at h
  · injection h with h
    subst h
    exact rwf_flag _ _ _ _ _ _ (by norm_num)
  · exact absurd h (by simp)

lemma rwf_scope (d a : String) (sr : Rat × List String) (h : PairWF sr)
    (hpos : 0 < sr.1) : RWF ⟨d, a, sr.1, sr.2, Decidable.decide (4 ≤ sr.1)⟩ :=
  ⟨h.1, fun _ => h.2 hpos⟩

lemma pairWF_add {sr : Rat × List String} {q : Rat} {m : String}
    (h : PairWF sr) (hq : 0 ≤ q) : PairWF (sr.1 + q, sr.2 ++ [m]) :=
  ⟨add_nonneg h.1 hq, fun _ => by simp⟩

lemma scope_wf (p : Proposal) (lock : Option IntentLock) (oracle : ScopeOracle)
    (r : CheckResult) (h : _scope_check p lock oracle = some r) : RWF r := by
  unfold _scope_check at h
  split at h
  · exact absurd h (by simp)
  · dsimp only at h
    rcases htp : p.target_path with _ | tp <;>
      rcases hnt : p.network_target with _ | nt <;>
        rw [htp, hnt] at h <;>
          dsimp only at h <;>
            repeat' split at h
    all_goals first
      | exact Option.noConfusion h
      | (injection h with h
         subst h
         refine ⟨by norm_num, fun hflag => ?_⟩
         first
           | (simp; done)
           | (rcases hflag with hf | hf <;> exact absurd hf (by norm_num)))

lemma intent_wf (p : Proposal) (lock : Option IntentLock) (io : Option CheckResult)
    (r : CheckResult) (h : _intent_match p lock = .ok io) (hio : io = some r) : RWF r := by
  subst hio
  unfold _intent_match at h
  split at h
  · injection h with h
    exact absurd h (by simp)
  · split at h
    · dsimp only at h
      split at h
      · injection h with h
        exact absurd h (by simp)
      · split at h
        · injection h with h
          exact absurd h (by simp)
        · injection h with h
          injection h with h
          subst h
          exact rwf_flag _ _ _ _ _ _ (by norm_num)
    · exact absurd h (by simp)

lemma mem_optList {r : CheckResult} {o : Option CheckResult}
    (h : r ∈ (match o with | some x => [x] | none => ([] : List CheckResult))) :
    o = some r := by
  cases o <;> simp_all

lemma ifEmpty_ne_nil (l : List String) (m : String) :
    (if l.isEmpty = true then [m] else l) ≠ [] := by
  cases l <;> simp

lemma suggest_ne_nil (p : Proposal) (rs : List CheckResult) :
    _suggest_alternatives p rs ≠ [] := by
  unfold _suggest_alternatives
  dsimp only
  exact ifEmpty_ne_nil _ _

lemma detect_anomaly_le3 (rs : List CheckResult) : detect_anomaly rs ≤ 3 := by
  unfold detect_anomaly
  dsimp only
  split_ifs <;> norm_num

lemma exists_pos_of_composite_pos :
    ∀ rs : List CheckResult, (∀ r ∈ rs, 0 ≤ r.score) →
      0 < compute_composite_score rs → ∃ r ∈ rs, 0 < r.score := by
  intro rs
  induction rs with
  | nil =>
    intro _ h
    simp [compute_composite_score] at h
  | cons a t ih =>
    intro hnn h
    rcases lt_or_le 0 a.score with hpos | hle
    · exact ⟨a, List.mem_cons_self a t, hpos⟩
    · have ha : a.score = 0 := le_antisymm hle (hnn a (List.mem_cons_self a t))
      have hcomp : compute_composite_score (a :: t) = compute_composite_score t := by
        unfold compute_composite_score
        rw [List.foldl_cons, foldl_score_shift, ha]
        ring
      rw [hcomp] at h
      obtain ⟨r, hr, hrpos⟩ := ih (fun r hr => hnn r (List.mem_cons_of_mem a hr)) h
      exact ⟨r, List.mem_cons_of_mem a hr, hrpos⟩

lemma collect_reasons_foldl_ne_nil (rs : List CheckResult) :
    ∀ acc : List String, acc ≠ [] →
      rs.foldl
        (fun reasons r =>
          if 0 < r.score ∨ r.hard_block = true then reasons ++ r.reasons else reasons)
        acc ≠ [] := by
  induction rs with
  | nil =>
    intro acc h
    simpa using h
  | cons a t ih =>
    intro acc h
    simp only [List.foldl_cons]
    apply ih
    split
    · intro hx
      exact h (List.append_eq_nil.mp hx).1
    · exact h

lemma collect_reasons_mem_aux :
    ∀ (rs : List CheckResult) (acc : List String) (r : CheckResult), r ∈ rs →
      (0 < r.score ∨ r.hard_block = true) → r.reasons ≠ [] →
      rs.foldl
        (fun reasons r =>
          if 0 < r.score ∨ r.hard_block = true then reasons ++ r.reasons else reasons)
        acc ≠ [] := by
  intro rs
  induction rs with
  | nil =>
    intro acc r hr
    simp at hr
  | cons a t ih =>
    intro acc r hr hflag hne
    simp only [List.foldl_cons]
    rcases List.mem_cons.mp hr with rfl | hr
    · rw [if_pos hflag]
      exact collect_reasons_foldl_ne_nil t _ (fun hx => hne (List.append_eq_nil.mp hx).2)
    · exact ih _ r hr hflag hne

lemma collect_reasons_ne (rs : List CheckResult) (r : CheckResult) (hr : r ∈ rs)
    (hflag : 0 < r.score ∨ r.hard_block = true) (hne : r.reasons ≠ []) :
    collect_reasons rs ≠ [] := by
  unfold collect_reasons
  exact collect_reasons_mem_aux rs [] r hr hflag hne

lemma block_collect_reasons_ne (rs : List CheckResult)
    (hwf : ∀ r ∈ rs, RWF r)
    (hd : decide (compute_composite_score rs + detect_anomaly rs) rs = Decision.BLOCK) :
    collect_reasons rs ≠ [] := by
  unfold decide at hd
  split at hd
  · rename_i hhb
    unfold has_hard_block at hhb
    obtain ⟨r, hr, hrb⟩ := List.any_eq_true.mp hhb
    exact collect_reasons_ne rs r hr (Or.inr hrb) ((hwf r hr).2 (Or.inr hrb))
  · split at hd
    · rename_i hge
      have h7 : (7 : Rat) ≤ compute_composite_score rs + detect_anomaly rs := by
        simpa [THRESHOLDS] using hge
      have ha : detect_anomaly rs ≤ 3 := detect_anomaly_le3 rs
      have hc : 0 < compute_composite_score rs := by linarith
      obtain ⟨r, hr, hpos⟩ :=
        exists_pos_of_composite_pos rs (fun r hr => (hwf r hr).1) hc
      exact collect_reasons_ne rs r hr (Or.inl hpos) ((hwf r hr).2 (Or.inl hpos))
    · split at hd
      · exact absurd hd (by simp)
      · split at hd
        · exact absurd hd (by simp)
        · exact absurd hd (by simp)

set_option maxHeartbeats 2000000 in
/-- C9: if `evaluate` returns a BLOCK verdict then its reasons list is
non-empty and its alternatives list contains at least one entry. -/
theorem block_has_reasons_and_alternatives (env : EvalEnv) (proposal : Proposal)
    (v : Verdict) (newLog : List LogLine)
    (h : evaluate env proposal = .ok (v, newLog)) (hb : v.decision = Decision.BLOCK) :
    v.reasons ≠ [] ∧ v.alternatives ≠ [] := by
  unfold evaluate at h
  dsimp only at h
  split at h
  · exact Except.noConfusion h
  rename_i tri htri
  split at h
  · exact Except.noConfusion h
  rename_i lock hlock
  split at h
  · exact Except.noConfusion h
  rename_i intent_result hI
  split at h
  · exact Except.noConfusion h
  rename_i rl hrl
  split at h
  · exact Except.noConfusion h
  rename_i protocol_results hrac
  split at h
  · exact Except.noConfusion h
  rename_i lr happ
  injection h with h
  injection h with h1 h2
  subst h1
  dsimp only at hb
  dsimp only
  refine ⟨block_collect_reasons_ne _ ?_ hb, suggest_ne_nil _ _⟩
  intro r hr
  rcases List.mem_append.mp hr with hr | hr
  · rcases List.mem_append.mp hr with hr | hr
    · rcases List.mem_append.mp hr with hr | hr
      · rcases List.mem_append.mp hr with hr | hr
        · exact run_all_checks_wf _ _ hrac r hr
        · exact auth_wf _ r (mem_optList hr)
      · exact scope_wf _ _ _ r (mem_optList hr)
    · exact intent_wf _ _ _ r hI (mem_optList hr)
  · have hsome := mem_optList hr
    split at hsome
    · injection hsome with hsome
      subst hsome
      refine ⟨?_, fun _ => by simp⟩
      split
      · rename_i h30
        have hper : (0 : Rat) < rl.2.2 / 30 :=
          div_pos (lt_trans (by norm_num) h30) (by norm_num)
        exact le_min (by linarith) (by norm_num)
      · norm_num
    · exact Option.noConfusion hsome

set_option maxRecDepth 16000 in
set_option maxHeartbeats 4000000 in
/-- Witness for C9: in the concrete busy environment, `git status` is
BLOCKed, and the verdict indeed carries reasons and alternatives. -/
theorem block_has_reasons_and_alternatives_witness :
    ∃ v newLog, evaluate busyEnv { text := "git status" } = .ok (v, newLog)
      ∧ v.decision = Decision.BLOCK ∧ v.reasons ≠ [] ∧ v.alternatives ≠ [] := by
  have hmap : (evaluate busyEnv { text := "git status" }).map (fun q => q.1.decision)
      = .ok Decision.BLOCK := by with_unfolding_all rfl
  cases hE : evaluate busyEnv { text := "git status" } with
  | error e =>
    rw [hE] at hmap
    exact Except.noConfusion hmap
  | ok q =>
    obtain ⟨v, newLog⟩ := q
    rw [hE] at hmap
    dsimp only [Except.map] at hmap
    injection hmap with hmap
    obtain ⟨h1, h2⟩ := block_has_reasons_and_alternatives busyEnv _ v newLog hE hmap
    exact ⟨v, newLog, rfl, hmap, h1, h2⟩

end Cord
